import Mathlib

/-
  Verification of the execution core of the VILAGENT GUI-automation agent
  (src/core: state.py, workflow.py, nodes.py, edges.py), as a shallow
  embedding in Lean 4.

  Modelling conventions:
  * Python's dynamically-typed values (`Any`) are embedded as the JSON-like
    inductive `Val`; Python `None` is `Val.null`.
  * Python dicts that the core only reads through `get`/`in`/assignment are
    embedded as association lists with first-match lookup.
  * `time.time()` is threaded as an explicit `now : Int` parameter: each
    node-level entry receives the current wall clock once, so every
    `now_ms()` call inside a single node invocation reads the same value.
  * `uuid`-based `new_id` and the Python-`hash`-based `fingerprint` are
    opaque deterministic identifiers in the source; they are modelled by
    deterministic functions.  No property below depends on their values.
  * Mutation of the single `AgentState` object and of the executor's cache
    is modelled by explicit state passing; the source's `threading.Lock`
    only serializes the lookup-and-insert, which the sequential embedding
    reflects directly.
-/

namespace VILAGENT

/-- JSON-like dynamic value; the embedding of Python `Any` for the data the
core manipulates (tool arguments, tool result payloads, telemetry
attributes, scratch entries). -/
inductive Val where
  | null : Val
  | bool : Bool → Val
  | int : Int → Val
  | str : String → Val
  | list : List Val → Val
  | dict : List (String × Val) → Val

/-- First-match association-list lookup (embedding of Python dict access;
the core never stores two bindings for one key). -/
def alLookup {α : Type} : List (String × α) → String → Option α
  | [], _ => none
  | (k', v) :: t, k => if k' = k then some v else alLookup t k

/-- Embedding of Python truthiness for the `Val` universe
(`None`, `False`, `0`, `""`, `[]`, `{}` are falsy). -/
def Val.truthy : Val → Bool
  | .null => false
  | .bool b => b
  | .int n => !(n == 0)
  | .str s => !(s == "")
  | .list xs => !xs.isEmpty
  | .dict kvs => !kvs.isEmpty

/-- Python `isinstance(v, dict)`. -/
def Val.isDict : Val → Bool
  | .dict _ => true
  | _ => false

/-- Python `isinstance(v, list)`. -/
def Val.isList : Val → Bool
  | .list _ => true
  | _ => false

/-- Python `d.get(k)` on a dict value: `None` both for a missing key and for
a key bound to `None` (the core never distinguishes the two). Returns
`none` when `v` is not a dict; the source only applies it after an
`isinstance(…, dict)` check. -/
def pyGet (v : Val) (k : String) : Option Val :=
  match v with
  | .dict kvs =>
    match alLookup kvs k with
    | some .null => none
    | some x => some x
    | none => none
  | _ => none

/-- Python `d.get(k, default)` on a dict value: the stored value when the
key is present (even if `None`), the default otherwise. -/
def pyGetD (v : Val) (k : String) (d : Val) : Val :=
  match v with
  | .dict kvs =>
    match alLookup kvs k with
    | some x => x
    | none => d
  | _ => d

/-- Python `str(x)` restricted to the values the core interpolates into
strings (idempotency-key suffixes and error messages). -/
def pyStr : Val → String
  | .null => "None"
  | .bool b => if b then "True" else "False"
  | .int n => toString n
  | .str s => s
  | .list _ => "[...]"
  | .dict _ => "\x7b...\x7d"

/-- Python `str(opt)` where `opt` is an `Optional[str]`-like field
(`str(None) = "None"`). -/
def pyStrOpt (o : Option Val) : String :=
  pyStr (o.getD .null)

/-- Lift an optional string into the `Val` universe. -/
def optStrVal (o : Option String) : Val :=
  match o with
  | none => .null
  | some s => .str s

/-- Lift an optional value into the `Val` universe (None becomes null). -/
def optVal (o : Option Val) : Val :=
  o.getD .null

example : Val.truthy (.int 0) = false := by decide

example : pyGet (.dict [("hash", .null)]) "hash" = none := rfl

/-! ## state.py — basic types and error codes -/

/-- The `Status` literal union from state.py. -/
inductive Status where
  | INIT
  | PLANNING
  | PERCEIVING
  | POLICY_CHECK
  | ACTING
  | VERIFYING
  | RECOVERING
  | WAITING_APPROVAL
  | DONE
  | FAILED
  | ESCALATED
deriving DecidableEq, Repr

/-- The string each `Status` literal denotes (used in telemetry payloads). -/
def statusStr : Status → String
  | .INIT => "INIT"
  | .PLANNING => "PLANNING"
  | .PERCEIVING => "PERCEIVING"
  | .POLICY_CHECK => "POLICY_CHECK"
  | .ACTING => "ACTING"
  | .VERIFYING => "VERIFYING"
  | .RECOVERING => "RECOVERING"
  | .WAITING_APPROVAL => "WAITING_APPROVAL"
  | .DONE => "DONE"
  | .FAILED => "FAILED"
  | .ESCALATED => "ESCALATED"

/-- The `Risk` literal union from state.py. -/
inductive Risk where
  | LOW
  | MEDIUM
  | HIGH
deriving DecidableEq, Repr

def riskStr : Risk → String
  | .LOW => "LOW"
  | .MEDIUM => "MEDIUM"
  | .HIGH => "HIGH"

/- Centralized error codes (class ErrorCode in state.py). -/
namespace ErrorCode

def DONE : String := "DONE"
def ESCALATED : String := "ESCALATED"
def PLAN_INVALID : String := "PLAN_INVALID"
def PLAN_ERROR : String := "PLAN_ERROR"
def NO_PLAN : String := "NO_PLAN"
def STEP_TIMEOUT : String := "STEP_TIMEOUT"
def TOOL_MISSING : String := "TOOL_MISSING"
def TOOL_NOT_FOUND : String := "TOOL_NOT_FOUND"
def POLICY_DENY : String := "POLICY_DENY"
def POLICY_DENY_ALLOWLIST : String := "POLICY_DENY: Tool not in allowlist"
def POLICY_DENY_DENYLIST : String := "POLICY_DENY: Tool in denylist"
def MCP_NOT_CONFIGURED : String := "MCP_NOT_CONFIGURED"
def RETRY_EXHAUSTED : String := "RETRY_EXHAUSTED"
def RECOVERY_ERROR : String := "RECOVERY_ERROR"

end ErrorCode

/-- The `new_id(prefix)` appends a uuid4-derived suffix in the source; the suffix
is opaque and never inspected, so the model keeps only the prefix. -/
def new_id (pre : String) : String := pre ++ "_id"

/-! ## state.py — telemetry -/

/-- One entry of `Telemetry.events`: the source appends
`{"ts_ms": now_ms(), "type": type_, **kwargs}`. -/
structure Event where
  ts_ms : Int
  type_ : String
  attrs : List (String × Val)

/-- The `Span` from state.py; node entry opens a span and the `finally` block
closes it with the same clock value in this single-`now` model. -/
structure Span where
  name : String
  start_ms : Int
  end_ms : Option Int := none
  attrs : List (String × Val) := []

/-- The `Telemetry` from state.py. -/
structure Telemetry where
  events : List Event := []
  spans : List Span := []
  last_error : Option String := none
  error_code : Option String := none

/-- The `Telemetry.event`: append-only structured log. -/
def Telemetry.event (t : Telemetry) (now : Int) (type_ : String)
    (attrs : List (String × Val)) : Telemetry :=
  { t with events := t.events ++ [{ ts_ms := now, type_ := type_, attrs := attrs }] }

/-- The `Telemetry.span` followed by the closing `sp.close()` of the node's
`finally`: both timestamps are the node's `now`. -/
def Telemetry.spanClosed (t : Telemetry) (now : Int) (name : String) : Telemetry :=
  { t with spans := t.spans ++ [{ name := name, start_ms := now, end_ms := some now }] }

/-! ## state.py — plan contracts -/

/-- The `Step` dataclass. -/
structure Step where
  id : String
  title : String
  intent : String
  success_criteria : List String := []
  tools_allowed : List String := []
  risk : Risk := .LOW
  max_retries : Nat := 2
  timeout_ms : Int := 90000
deriving Repr

instance : Inhabited Step :=
  ⟨{ id := "", title := "", intent := "" }⟩

/-- The `Plan` dataclass. `current_step_idx` is an `Int` because the source
manipulates it as a plain Python int. -/
structure Plan where
  objective : String
  steps : List Step := []
  current_step_idx : Int := 0
  plan_fingerprint : Option String := none
deriving Repr

instance : Inhabited Plan := ⟨{ objective := "" }⟩

/-- The `Plan.is_valid`: non-empty step list and in-range index. -/
def Plan.is_valid (p : Plan) : Bool :=
  !p.steps.isEmpty && decide (0 ≤ p.current_step_idx) &&
    decide (p.current_step_idx < (p.steps.length : Int))

/-- The `Plan.current`: `self.steps[self.current_step_idx]`. Total via a default;
the source only evaluates it under an `is_valid` guard. -/
def Plan.current (p : Plan) : Step :=
  p.steps.getD p.current_step_idx.toNat default

/-- The `Plan.advance`: increment the step pointer; report whether the plan
finished. Returns the flag together with the mutated plan. -/
def Plan.advance (p : Plan) : Bool × Plan :=
  let p' := { p with current_step_idx := p.current_step_idx + 1 }
  (decide (p'.current_step_idx ≥ (p.steps.length : Int)), p')

/-! ## state.py — perception, actions, policy, retry, tool contracts -/

/-- The `PerceptionSnapshot` dataclass. Fields that the source fills from
dynamically-typed dict lookups are `Option Val` (`none` = Python `None`). -/
structure PerceptionSnapshot where
  screenshot_hash : Option Val := none
  screenshot_b64 : Option Val := none
  focused_window : Option Val := none
  uia_tree : Option Val := none
  elements : List Val := []
  ts_ms : Val := .null

/-- The `ActionRecord` dataclass (append-only audit log entry). -/
structure ActionRecord where
  action_id : String
  tool : String
  args : List (String × Val)
  idempotency_key : String
  started_ms : Int
  ended_ms : Option Int := none
  ok : Option Bool := none
  error : Option String := none
  effect_fingerprint : Option Val := none

instance : Inhabited ActionRecord :=
  ⟨{ action_id := "", tool := "", args := [], idempotency_key := "", started_ms := 0 }⟩

/-- The `PolicyContext` dataclass. -/
structure PolicyContext where
  tool_allowlist : List String := []
  tool_denylist : List String := []
  require_approval_for_high_risk : Bool := true
  last_decision : Option String := none
  deny_reason : Option String := none

/-- The `RetryBudget` dataclass; `step_retry_counts` is a dict step-id → count. -/
structure RetryBudget where
  total_budget : Nat := 8
  used : Nat := 0
  step_retry_counts : List (String × Nat) := []

/-- The `dict.get(step_id, 0)` over the retry-count map. -/
def RetryBudget.count (rb : RetryBudget) (step_id : String) : Nat :=
  (alLookup rb.step_retry_counts step_id).getD 0

/-- The `RetryBudget.can_retry_step`. -/
def RetryBudget.can_retry_step (rb : RetryBudget) (step_id : String) (step_max : Nat) : Bool :=
  if rb.used ≥ rb.total_budget then false
  else decide (rb.count step_id < step_max)

/-- Overwrite-or-insert for a dict modelled as an association list. -/
def alStore {α : Type} : List (String × α) → String → α → List (String × α)
  | [], k, v => [(k, v)]
  | (k', v') :: t, k, v => if k' = k then (k, v) :: t else (k', v') :: alStore t k v

/-- The `RetryBudget.consume`. -/
def RetryBudget.consume (rb : RetryBudget) (step_id : String) : RetryBudget :=
  { rb with
    used := rb.used + 1
    step_retry_counts := alStore rb.step_retry_counts step_id (rb.count step_id + 1) }

/-- The `ToolCall` dataclass. -/
structure ToolCall where
  name : String
  args : List (String × Val)
  idempotency_key : String
  timeout_ms : Int := 30000

/-- The `ToolResult` dataclass. -/
structure ToolResult where
  ok : Bool
  data : Val := .null
  error : Option String := none

instance : Inhabited ToolResult := ⟨{ ok := false }⟩

/-! ## state.py — agent state -/

/-- The `AgentState` dataclass: the single mutable record threaded through the
graph. `scratch` is modelled without the executor instance, which the
embedding passes to nodes explicitly (as nodes.py's signatures do). -/
structure AgentState where
  run_id : String
  goal : String
  status : Status := .INIT
  plan : Option Plan := none
  perception : Option PerceptionSnapshot := none
  actions : List ActionRecord := []
  policy : PolicyContext := {}
  retry : RetryBudget := {}
  telemetry : Telemetry := {}
  requires_human_approval : Bool := false
  approved : Bool := false
  last_step_started_ms : Option Int := none
  done_reason : Option String := none
  scratch : List (String × Val) := []

/-- Append one telemetry event to the state. -/
def agEvent (now : Int) (st : AgentState) (type_ : String)
    (attrs : List (String × Val)) : AgentState :=
  { st with telemetry := st.telemetry.event now type_ attrs }

/-- Open (and, per the node's `finally`, close) one telemetry span. -/
def agSpan (now : Int) (st : AgentState) (name : String) : AgentState :=
  { st with telemetry := st.telemetry.spanClosed now name }

/-- The `AgentState.set_terminal`. -/
def AgentState.set_terminal (st : AgentState) (now : Int) (status : Status)
    (reason : String) (code : Option String) : AgentState :=
  let st := { st with
    status := status
    done_reason := some reason
    telemetry := { st.telemetry with
      last_error := if status = .FAILED ∨ status = .ESCALATED then some reason else none
      error_code := code } }
  agEvent now st "terminal"
    [("status", .str (statusStr status)), ("reason", .str reason), ("code", optStrVal code)]

/-! ## workflow.py — tooling configuration, registry, executor -/

/-- The `ToolingConfig` dataclass: stable tool aliases used by nodes. -/
structure ToolingConfig where
  screen_capture : String := "screen_capture"
  omniparser_v2_parse : String := "omniparser_v2_parse"
  screenshot_diff : String := "screenshot_diff"
  focus_window : String := "focus_window"
  uia_tree : String := "uia_tree"
  uia_click : String := "uia_click"
  uia_set_text : String := "uia_set_text"
  click : String := "click"
  double_click : String := "double_click"
  right_click : String := "right_click"
  move : String := "move"
  drag : String := "drag"
  scroll : String := "scroll"
  type_text : String := "type_text"
  hotkey : String := "hotkey"
  key_down : String := "key_down"
  key_up : String := "key_up"
  wait : String := "wait"
  ping : String := "ping"
  time_now_ms : String := "time_now_ms"
  clipboard_get : String := "clipboard_get"
  clipboard_set : String := "clipboard_set"

/-- The `MCPMap` dataclass: alias → fully-qualified MCP tool name. -/
structure MCPMap where
  alias_to_fq : List (String × String) := []

/-- The `MCPMap.resolve`. -/
def MCPMap.resolve (m : MCPMap) (tool_alias : String) : Option String :=
  alLookup m.alias_to_fq tool_alias

/-- A local tool is a plain function of the argument dict (`LocalToolFn`). -/
def LocalToolFn : Type := List (String × Val) → ToolResult

/-- The MCP client contract: `call(tool_name, args, timeout_ms)`. -/
def MCPClient : Type := String → List (String × Val) → Int → ToolResult

/-- The `ToolRegistry` dataclass. -/
structure ToolRegistry where
  local_tools : List (String × LocalToolFn)
  mcp_map : MCPMap

def ToolRegistry.has_local (r : ToolRegistry) (tool_alias : String) : Bool :=
  (alLookup r.local_tools tool_alias).isSome

def ToolRegistry.has_mcp (r : ToolRegistry) (tool_alias : String) : Bool :=
  (r.mcp_map.resolve tool_alias).isSome

def ToolRegistry.has (r : ToolRegistry) (tool_alias : String) : Bool :=
  r.has_local tool_alias || r.has_mcp tool_alias

/-- The `DefaultToolExecutor`: registry + optional MCP client + per-run
idempotency cache (`self._idem`).  The `self._state` reference is passed
explicitly to `call`. -/
structure DefaultToolExecutor where
  registry : ToolRegistry
  mcp : Option MCPClient
  idem : List (String × ToolResult) := []

def DefaultToolExecutor.has (ex : DefaultToolExecutor) (tool_alias : String) : Bool :=
  ex.registry.has tool_alias

/-- The `DefaultToolExecutor._policy_allows`: returns the gate's ToolResult and
the mutated `state.policy`. -/
def DefaultToolExecutor.policy_allows (pol : PolicyContext) (tool_alias : String) :
    ToolResult × PolicyContext :=
  if !pol.tool_allowlist.isEmpty && !(pol.tool_allowlist.contains tool_alias) then
    ({ ok := false, error := some ErrorCode.POLICY_DENY_ALLOWLIST },
     { pol with last_decision := some "DENY", deny_reason := some "Tool not in allowlist" })
  else if pol.tool_denylist.contains tool_alias then
    ({ ok := false, error := some ErrorCode.POLICY_DENY_DENYLIST },
     { pol with last_decision := some "DENY", deny_reason := some "Tool in denylist" })
  else
    ({ ok := true, data := .null },
     { pol with last_decision := some "ALLOW", deny_reason := none })

/-- The dispatch stage of `DefaultToolExecutor.call` (the `try` block):
local tool if the alias is registered locally, otherwise MCP resolution.
Local functions are total in the embedding, so the `except` conversion of a
raised exception into an error ToolResult has no inhabitant here. -/
def DefaultToolExecutor.dispatch (ex : DefaultToolExecutor) (c : ToolCall) : ToolResult :=
  match alLookup ex.registry.local_tools c.name with
  | some fn => fn c.args
  | none =>
    match ex.registry.mcp_map.resolve c.name with
    | none => { ok := false, error := some (ErrorCode.TOOL_NOT_FOUND ++ ": " ++ c.name) }
    | some fq =>
      match ex.mcp with
      | none => { ok := false, error := some ErrorCode.MCP_NOT_CONFIGURED }
      | some mcp => mcp fq c.args c.timeout_ms

/-- The `DefaultToolExecutor.call`: policy gate, idempotency lookup, dispatch,
cache insert, telemetry — in source order. -/
def DefaultToolExecutor.call (now : Int) (ex : DefaultToolExecutor) (st : AgentState)
    (c : ToolCall) : ToolResult × DefaultToolExecutor × AgentState :=
  let pr := DefaultToolExecutor.policy_allows st.policy c.name
  let pol := pr.1
  let st := { st with policy := pr.2 }
  if pol.ok = false then
    let st := agEvent now st "tool_denied"
      [("tool", .str c.name), ("reason", optStrVal pol.error)]
    (pol, ex, st)
  else
    match alLookup ex.idem c.idempotency_key with
    | some hit =>
      let st := agEvent now st "tool_idempotent_hit" [("tool", .str c.name)]
      (hit, ex, st)
    | none =>
      let res := ex.dispatch c
      let ex := { ex with idem := (c.idempotency_key, res) :: ex.idem }
      let st := agEvent now st "tool_called"
        [("tool", .str c.name), ("ok", .bool res.ok)]
      (res, ex, st)

/-- The ToolResult component of `DefaultToolExecutor.call`. -/
def callResult (now : Int) (ex : DefaultToolExecutor) (st : AgentState) (c : ToolCall) :
    ToolResult :=
  (DefaultToolExecutor.call now ex st c).1

/-- The executor component of `DefaultToolExecutor.call`. -/
def callExec (now : Int) (ex : DefaultToolExecutor) (st : AgentState) (c : ToolCall) :
    DefaultToolExecutor :=
  (DefaultToolExecutor.call now ex st c).2.1

/-- The state component of `DefaultToolExecutor.call`. -/
def callState (now : Int) (ex : DefaultToolExecutor) (st : AgentState) (c : ToolCall) :
    AgentState :=
  (DefaultToolExecutor.call now ex st c).2.2

/-- Run a list of executor calls in sequence (the executor as the nodes
drive it within one run), collecting the returned ToolResults. -/
def callSeq (now : Int) (ex : DefaultToolExecutor) (st : AgentState) :
    List ToolCall → List ToolResult × DefaultToolExecutor × AgentState
  | [] => ([], ex, st)
  | c :: cs =>
    let r := DefaultToolExecutor.call now ex st c
    let rest := callSeq now r.2.1 r.2.2 cs
    (r.1 :: rest.1, rest.2.1, rest.2.2)

/-- The boolean policy decision implied by `_policy_allows` (true iff the
gate lets the alias through). -/
def policyDecision (pol : PolicyContext) (tool_alias : String) : Bool :=
  (pol.tool_allowlist.isEmpty || pol.tool_allowlist.contains tool_alias) &&
    !(pol.tool_denylist.contains tool_alias)

/-! ## nodes.py — internal helpers -/

/-- The `_ensure_plan`. -/
def _ensure_plan (st : AgentState) : Bool :=
  match st.plan with
  | none => false
  | some p => p.is_valid

/-- The current step of the state's plan (`state.plan.current`); the source
only reads it under an `_ensure_plan` guard. -/
def AgentState.currentStep (st : AgentState) : Step :=
  (st.plan.getD default).current

/-- The `_step_timeout_exceeded`. -/
def _step_timeout_exceeded (now : Int) (st : AgentState) : Bool :=
  if !(_ensure_plan st) then false
  else
    match st.last_step_started_ms with
    | none => false
    | some t => decide (now - t > st.currentStep.timeout_ms)

/-- The `_terminal_fail`. -/
def _terminal_fail (now : Int) (st : AgentState) (reason : String) (code : String) : AgentState :=
  st.set_terminal now .FAILED reason (some code)

/-- The `_terminal_escalate`. -/
def _terminal_escalate (now : Int) (st : AgentState) (reason : String)
    (code : String := ErrorCode.ESCALATED) : AgentState :=
  st.set_terminal now .ESCALATED reason (some code)

/-- The `_terminal_done`. -/
def _terminal_done (now : Int) (st : AgentState) (reason : String) : AgentState :=
  st.set_terminal now .DONE reason (some ErrorCode.DONE)

/-- The `_record_action`: append one ActionRecord to the audit log. -/
def _record_action (st : AgentState) (tool : String) (args : List (String × Val))
    (idempotency_key : String) (started_ms ended_ms : Int) (ok : Bool)
    (error : Option String) (effect_fingerprint : Option Val) : AgentState :=
  { st with actions := st.actions ++
      [{ action_id := new_id "act", tool := tool, args := args,
         idempotency_key := idempotency_key, started_ms := started_ms,
         ended_ms := some ended_ms, ok := some ok, error := error,
         effect_fingerprint := effect_fingerprint }] }

/-- The `_safe_err` reduced to its message (exception kinds are not modelled). -/
def _safe_err (msg : String) : String := msg

mutual

/-- Deterministic encoding of a `Val`, standing in for
`fingerprint = str(abs(hash(stable_json(obj))))`.  The source treats the
fingerprint as an opaque deterministic identifier of the argument dict; no
property below depends on its value, only on its determinism, which this
encoding provides. -/
def fpVal : Val → String
  | .null => "n"
  | .bool b => if b then "b1" else "b0"
  | .int n => "i" ++ toString n
  | .str s => "s" ++ toString s.length ++ ":" ++ s
  | .list xs => "l(" ++ fpList xs ++ ")"
  | .dict kvs => "d(" ++ fpKVs kvs ++ ")"

/-- Encoding of a list of values (see `fpVal`). -/
def fpList : List Val → String
  | [] => ""
  | x :: xs => fpVal x ++ ";" ++ fpList xs

/-- Encoding of a dict body (see `fpVal`). -/
def fpKVs : List (String × Val) → String
  | [] => ""
  | (k, v) :: t => k ++ "=" ++ fpVal v ++ ";" ++ fpKVs t

end

/-- The `fingerprint` applied to an argument dict. -/
def fingerprint (args : List (String × Val)) : String :=
  fpVal (.dict args)

/-- The `_toolcall_key`: `run_id:step_id:tool:fingerprint(args)[:suffix]`. -/
def _toolcall_key (st : AgentState) (step : Step) (tool : String)
    (args : List (String × Val)) (suffix : String := "") : String :=
  let base := st.run_id ++ ":" ++ step.id ++ ":" ++ tool ++ ":" ++ fingerprint args
  if suffix = "" then base else base ++ ":" ++ suffix

/-- The `str.startswith`, computed on the character lists (kernel-reducible). -/
def strStartsWith (s p : String) : Bool :=
  p.data.isPrefixOf s.data

/-- Python truthiness-guarded `str.startswith` as applied to
`res.error and str(res.error).startswith(p)`. -/
def errStartsWith (e : Option String) (p : String) : Bool :=
  match e with
  | none => false
  | some s => !(s == "") && strStartsWith s p

/-- Python `f"{opt}"` for an optional string (`str(None) = "None"`). -/
def optStrRepr (o : Option String) : String :=
  o.getD "None"

/-- The `state.scratch.get(key, default)`. -/
def scratchGetD (st : AgentState) (k : String) (d : Val) : Val :=
  (alLookup st.scratch k).getD d

/-! ## nodes.py — node functions -/

/-- The `node_policy_check`: the human-approval gate for HIGH-risk steps. -/
def node_policy_check (now : Int) (st : AgentState) : AgentState :=
  let st := agSpan now st "node_policy_check"
  if !(_ensure_plan st) then
    _terminal_fail now st "Policy check called without a valid plan" ErrorCode.NO_PLAN
  else
    let step := st.currentStep
    if st.policy.require_approval_for_high_risk && step.risk == .HIGH && !st.approved then
      let st := { st with
        requires_human_approval := true
        status := .WAITING_APPROVAL
        policy := { st.policy with last_decision := some "REQUIRE_APPROVAL" } }
      agEvent now st "approval_required"
        [("step_id", .str step.id), ("risk", .str (riskStr step.risk))]
    else
      let st := { st with
        requires_human_approval := false
        policy := { st.policy with last_decision := some "ALLOW" }
        status := .ACTING }
      agEvent now st "policy_allowed"
        [("step_id", .str step.id), ("risk", .str (riskStr step.risk))]

/-- One iteration of `node_act`'s for-loop up to (and including) the
`_record_action` append: the main executor call, the optional post-action
capture, and the audit-log append.  Returns the mutated state, the
executor, and the main call's ToolResult. -/
def act_step (now : Int) (tooling : ToolingConfig) (post_action_capture : Bool)
    (c : ToolCall) (ex : DefaultToolExecutor) (st : AgentState) :
    AgentState × DefaultToolExecutor × ToolResult :=
  let started := now
  let r1 := DefaultToolExecutor.call now ex st c
  let res := r1.1
  let ended := now
  let r2 :=
    if post_action_capture && r1.2.1.has tooling.screen_capture then
      let pc_args : List (String × Val) := [("return_b64", .bool false)]
      let pcall : ToolCall :=
        { name := tooling.screen_capture, args := pc_args,
          idempotency_key := c.idempotency_key ++ ":postcap", timeout_ms := 20000 }
      let rr := DefaultToolExecutor.call now r1.2.1 r1.2.2 pcall
      let fp := if rr.1.ok && rr.1.data.isDict then pyGet rr.1.data "hash" else none
      (fp, rr.2.1, rr.2.2)
    else ((none : Option Val), r1.2.1, r1.2.2)
  let st2 := _record_action r2.2.2 c.name c.args c.idempotency_key started ended
    res.ok res.error r2.1
  (st2, r2.2.1, res)

/-- The per-call body of `node_act`'s for-loop, compiled to a recursion that
returns the final state, the executor, the list of main-call ToolResults in
execution order, and `true` iff the loop ran to completion (no `return`
from inside the loop). -/
def act_loop (now : Int) (tooling : ToolingConfig) (post_action_capture : Bool) (step : Step) :
    List ToolCall → DefaultToolExecutor → AgentState →
      AgentState × DefaultToolExecutor × List ToolResult × Bool
  | [], ex, st => (st, ex, [], true)
  | c :: cs, ex, st =>
    let S := act_step now tooling post_action_capture c ex st
    let res := S.2.2
    if res.ok then
      let rest := act_loop now tooling post_action_capture step cs S.2.1 S.1
      (rest.1, rest.2.1, res :: rest.2.2.1, rest.2.2.2)
    else if errStartsWith res.error "POLICY_DENY" then
      let st3 := agEvent now S.1 "policy_denied_runtime"
        [("step_id", .str step.id), ("tool", .str c.name), ("error", optStrVal res.error)]
      (_terminal_escalate now st3 ("Policy denied tool at runtime: " ++ optStrRepr res.error)
        ErrorCode.POLICY_DENY, S.2.1, [res], false)
    else
      let st3 := agEvent now S.1 "action_failed"
        [("step_id", .str step.id), ("tool", .str c.name), ("error", optStrVal res.error)]
      ({ st3 with status := .RECOVERING }, S.2.1, [res], false)

/-- The `node_act`: execute the ToolCalls produced by the action selector. -/
def node_act (now : Int) (st : AgentState) (ex : DefaultToolExecutor) (tooling : ToolingConfig)
    (selector : AgentState → ToolingConfig → List ToolCall)
    (post_action_capture : Bool := true) : AgentState × DefaultToolExecutor :=
  let st := agSpan now st "node_act"
  if !(_ensure_plan st) then
    (_terminal_fail now st "Act called without a valid plan" ErrorCode.NO_PLAN, ex)
  else if st.perception.isNone then
    ({ agEvent now st "act_missing_perception" [] with status := .RECOVERING }, ex)
  else if _step_timeout_exceeded now st then
    (_terminal_fail now st "Step timeout exceeded (act)" ErrorCode.STEP_TIMEOUT, ex)
  else
    let step := st.currentStep
    let calls := selector st tooling
    if calls.isEmpty then
      ({ agEvent now st "no_actions_selected" [("step_id", .str step.id)] with
          status := .RECOVERING }, ex)
    else
      let L := act_loop now tooling post_action_capture step calls ex st
      if L.2.2.2 then
        let st2 := { L.1 with status := .VERIFYING }
        (agEvent now st2 "actions_completed"
          [("step_id", .str step.id), ("action_count", .int (calls.length : Int))], L.2.1)
      else (L.1, L.2.1)

/-- The `node_verify`: consult the external verifier and advance the plan. -/
def node_verify (now : Int) (st : AgentState) (tooling : ToolingConfig)
    (verifier : AgentState → ToolingConfig → Bool × Val) : AgentState :=
  let st := agSpan now st "node_verify"
  if !(_ensure_plan st) then
    _terminal_fail now st "Verify called without a valid plan" ErrorCode.NO_PLAN
  else if st.perception.isNone then
    { st with status := .RECOVERING }
  else if _step_timeout_exceeded now st then
    _terminal_fail now st "Step timeout exceeded (verify)" ErrorCode.STEP_TIMEOUT
  else
    let step := st.currentStep
    let vr := verifier st tooling
    let st := { st with scratch := alStore st.scratch "verify_details" vr.2 }
    let st := agEvent now st "step_verified"
      [("step_id", .str step.id), ("ok", .bool vr.1), ("details", vr.2)]
    if vr.1 then
      let ar := (st.plan.getD default).advance
      let st := { st with plan := some ar.2 }
      if ar.1 then _terminal_done now st "All steps completed"
      else { st with last_step_started_ms := some now, status := .PERCEIVING }
    else { st with status := .RECOVERING }

/-- The for-loop of `node_recover` over the recovery ToolCalls; the flag is
`true` iff the loop ran to completion (no POLICY_DENY escalation). Unlike
`node_act`, a plain failure does not break the loop. -/
def recover_loop (now : Int) : List ToolCall → DefaultToolExecutor → AgentState →
    AgentState × DefaultToolExecutor × Bool
  | [], ex, st => (st, ex, true)
  | c :: cs, ex, st =>
    let r1 := DefaultToolExecutor.call now ex st c
    let res := r1.1
    let st2 := _record_action r1.2.2 c.name c.args c.idempotency_key now now
      res.ok res.error none
    if !res.ok && errStartsWith res.error "POLICY_DENY" then
      (_terminal_escalate now st2 ("Policy denied recovery tool: " ++ optStrRepr res.error)
        ErrorCode.POLICY_DENY, r1.2.1, false)
    else recover_loop now cs r1.2.1 st2

/-- The `node_recover`: gate on the retry budget, consume one unit, run the
recovery policy's calls, then go back to perception. -/
def node_recover (now : Int) (st : AgentState) (ex : DefaultToolExecutor)
    (tooling : ToolingConfig)
    (recovery : AgentState → ToolingConfig → List ToolCall) :
    AgentState × DefaultToolExecutor :=
  let st := agSpan now st "node_recover"
  if !(_ensure_plan st) then
    (_terminal_fail now st "Recover called without a valid plan" ErrorCode.NO_PLAN, ex)
  else
    let step := st.currentStep
    if !(st.retry.can_retry_step step.id step.max_retries) then
      let st := agEvent now st "retry_exhausted"
        [("step_id", .str step.id), ("total_used", .int (st.retry.used : Int)),
         ("total_budget", .int (st.retry.total_budget : Int)),
         ("step_used", .int (st.retry.count step.id : Int)),
         ("step_max", .int (step.max_retries : Int))]
      (_terminal_fail now st ("Retry exhausted for step " ++ step.id)
        ErrorCode.RETRY_EXHAUSTED, ex)
    else
      let st := { st with retry := st.retry.consume step.id }
      let st := agEvent now st "recover_attempt"
        [("step_id", .str step.id), ("total_used", .int (st.retry.used : Int)),
         ("step_used", .int (st.retry.count step.id : Int))]
      let calls := recovery st tooling
      let L := recover_loop now calls ex st
      if L.2.2 then ({ L.1 with status := .PERCEIVING }, L.2.1)
      else (L.1, L.2.1)

/-- The optional focus stage at the top of `node_perceive`. -/
def perceive_focus (now : Int) (st : AgentState) (ex : DefaultToolExecutor)
    (tooling : ToolingConfig) (step : Step) : AgentState × DefaultToolExecutor :=
  let focus_hint := alLookup st.scratch "focus_hint"
  let hinted := match focus_hint with | some v => v.truthy | none => false
  if hinted && ex.has tooling.focus_window then
    let args : List (String × Val) := [("hint", optVal focus_hint)]
    let r := DefaultToolExecutor.call now ex st
      { name := tooling.focus_window, args := args,
        idempotency_key := _toolcall_key st step tooling.focus_window args,
        timeout_ms := 15000 }
    (r.2.2, r.2.1)
  else (st, ex)

/-- The `node_perceive`: focus (optional), capture (required), UIA tree
(optional), OmniParser parse (conditional), then snapshot + POLICY_CHECK. -/
def node_perceive (now : Int) (st : AgentState) (ex : DefaultToolExecutor)
    (tooling : ToolingConfig) (store_screenshot_b64 : Bool)
    (prefer_uia_tree : Bool := true) (omniparser_enabled : Bool := true) :
    AgentState × DefaultToolExecutor :=
  let st := agSpan now st "node_perceive"
  if !(_ensure_plan st) then
    (_terminal_fail now st "Perceive called without a valid plan" ErrorCode.NO_PLAN, ex)
  else if _step_timeout_exceeded now st then
    (_terminal_fail now st "Step timeout exceeded (perceive)" ErrorCode.STEP_TIMEOUT, ex)
  else
    let step := st.currentStep
    let F := perceive_focus now st ex tooling step
    let st := F.1
    let ex := F.2
    if !(ex.has tooling.screen_capture) then
      (_terminal_fail now st ("Missing required tool alias: " ++ tooling.screen_capture)
        ErrorCode.TOOL_MISSING, ex)
    else
      let cap_args : List (String × Val) := [("return_b64", .bool store_screenshot_b64)]
      let C := DefaultToolExecutor.call now ex st
        { name := tooling.screen_capture, args := cap_args,
          idempotency_key := _toolcall_key st step tooling.screen_capture cap_args,
          timeout_ms := 30000 }
      let cap := C.1
      let ex := C.2.1
      let st := C.2.2
      if !cap.ok || !cap.data.isDict then
        let st := agEvent now st "perceive_capture_failed" [("error", optStrVal cap.error)]
        ({ st with status := .RECOVERING }, ex)
      else
        let snap : PerceptionSnapshot :=
          { screenshot_hash := pyGet cap.data "hash"
            screenshot_b64 := if store_screenshot_b64 then pyGet cap.data "b64" else none
            focused_window := pyGet cap.data "focused_window"
            ts_ms := pyGetD cap.data "ts_ms" (.int now) }
        let U :=
          if prefer_uia_tree && ex.has tooling.uia_tree then
            let uia_args : List (String × Val) := [("scope", .str "focused_window")]
            let r := DefaultToolExecutor.call now ex st
              { name := tooling.uia_tree, args := uia_args,
                idempotency_key := _toolcall_key st step tooling.uia_tree uia_args
                  (pyStrOpt snap.screenshot_hash),
                timeout_ms := 30000 }
            (if r.1.ok then { snap with uia_tree := some r.1.data } else snap, r.2.1, r.2.2)
          else (snap, ex, st)
        let snap := U.1
        let ex := U.2.1
        let st := U.2.2
        let need_vision := (scratchGetD st "need_vision" (.bool true)).truthy
        let O :=
          if omniparser_enabled && need_vision && ex.has tooling.omniparser_v2_parse then
            let omni_args : List (String × Val) :=
              [("image_b64", optVal snap.screenshot_b64),
               ("image_hash", optVal snap.screenshot_hash),
               ("context", .dict
                 [("goal", .str st.goal),
                  ("step", .dict
                    [("id", .str step.id), ("title", .str step.title),
                     ("intent", .str step.intent),
                     ("success_criteria", .list (step.success_criteria.map Val.str))]),
                  ("focused_window", optVal snap.focused_window)])]
            let omni_idem_args : List (String × Val) :=
              [("image_hash", optVal snap.screenshot_hash), ("step_id", .str step.id)]
            let r := DefaultToolExecutor.call now ex st
              { name := tooling.omniparser_v2_parse, args := omni_args,
                idempotency_key :=
                  _toolcall_key st step tooling.omniparser_v2_parse omni_idem_args,
                timeout_ms := 60000 }
            if r.1.ok then
              -- `omni.data.get("elements", []) or []`; a non-list truthy
              -- `elements` payload (which would make the source's later
              -- `len(snap.elements)` raise) is not modelled and maps to [].
              let elems :=
                match r.1.data with
                | .dict _ =>
                  match pyGetD r.1.data "elements" (.list []) with
                  | .list xs => xs
                  | _ => []
                | .list xs => xs
                | _ => []
              ({ snap with elements := elems }, r.2.1, r.2.2)
            else
              (snap, r.2.1, agEvent now r.2.2 "omniparser_failed"
                [("error", optStrVal r.1.error)])
          else (snap, ex, st)
        let snap := O.1
        let ex := O.2.1
        let st := O.2.2
        let st := { st with perception := some snap, status := .POLICY_CHECK }
        let st := agEvent now st "perceived"
          [("screenshot_hash", optVal snap.screenshot_hash),
           ("elements", .int (snap.elements.length : Int)),
           ("has_uia_tree", .bool (match snap.uia_tree with
             | some v => v.truthy
             | none => false)),
           ("focused_window", optVal snap.focused_window),
           ("store_screenshot_b64", .bool store_screenshot_b64)]
        (st, ex)

/-! ## edges.py — node keys and pure routing functions -/

def NODE_INITIALIZE : String := "initialize"
def NODE_PLAN : String := "plan"
def NODE_PERCEIVE : String := "perceive"
def NODE_POLICY : String := "policy_check"
def NODE_ACT : String := "act"
def NODE_VERIFY : String := "verify"
def NODE_RECOVER : String := "recover"
def NODE_WAIT_APPROVAL : String := "waiting_approval"
def NODE_FINALIZE : String := "finalize"
def NODE_END : String := "end"

/-- The `state.status in ("FAILED", "ESCALATED", "DONE")`: the terminal check
every router performs first. -/
def terminal3 (s : Status) : Bool :=
  s == .FAILED || s == .ESCALATED || s == .DONE

/-- The `state.scratch.get("force_replan") is True`. -/
def force_replan_set (st : AgentState) : Bool :=
  match alLookup st.scratch "force_replan" with
  | some (.bool true) => true
  | _ => false

/-- The `route_from_initialize`. -/
def route_from_initialize (st : AgentState) : String :=
  if terminal3 st.status then NODE_FINALIZE
  else NODE_PLAN

/-- The `route_from_plan`. -/
def route_from_plan (st : AgentState) : String :=
  if terminal3 st.status then NODE_FINALIZE
  else if st.status == .PERCEIVING then NODE_PERCEIVE
  else NODE_RECOVER

/-- The `route_from_perceive`. -/
def route_from_perceive (st : AgentState) : String :=
  if terminal3 st.status then NODE_FINALIZE
  else if st.status == .POLICY_CHECK then NODE_POLICY
  else if st.status == .RECOVERING then NODE_RECOVER
  else NODE_RECOVER

/-- The `route_from_policy_check`. -/
def route_from_policy_check (st : AgentState) : String :=
  if terminal3 st.status then NODE_FINALIZE
  else if st.status == .WAITING_APPROVAL then NODE_WAIT_APPROVAL
  else if st.status == .ACTING then NODE_ACT
  else NODE_RECOVER

/-- The `route_from_waiting_approval`. -/
def route_from_waiting_approval (st : AgentState) : String :=
  if terminal3 st.status then NODE_FINALIZE
  else if st.approved then NODE_POLICY
  else NODE_WAIT_APPROVAL

/-- The `route_from_act`. -/
def route_from_act (st : AgentState) : String :=
  if terminal3 st.status then NODE_FINALIZE
  else if st.status == .VERIFYING then NODE_VERIFY
  else if st.status == .RECOVERING then
    if force_replan_set st then NODE_PLAN else NODE_RECOVER
  else NODE_RECOVER

/-- The `route_from_verify`. -/
def route_from_verify (st : AgentState) : String :=
  if terminal3 st.status then NODE_FINALIZE
  else if st.status == .PERCEIVING then NODE_PERCEIVE
  else if st.status == .RECOVERING then
    if force_replan_set st then NODE_PLAN else NODE_RECOVER
  else NODE_RECOVER

/-- The `route_from_recover`. -/
def route_from_recover (st : AgentState) : String :=
  if terminal3 st.status then NODE_FINALIZE
  else if st.status == .PERCEIVING then NODE_PERCEIVE
  else if force_replan_set st then NODE_PLAN
  else NODE_PERCEIVE

/-- The `route_from_finalize`: always the end marker. -/
def route_from_finalize (_st : AgentState) : String :=
  NODE_END

/-! ## Concrete fixtures for witnesses and counterexamples -/

def sampleStep : Step := { id := "s1", title := "open app", intent := "open the app" }

def samplePlan : Plan := { objective := "obj", steps := [sampleStep] }

def baseState : AgentState :=
  { run_id := "run1", goal := "goal", status := .PERCEIVING, plan := some samplePlan }

/-- A deterministic local ping tool. -/
def pingFn : LocalToolFn := fun _ => { ok := true, data := .str "pong" }

/-- Executor with a single local tool `ping` and no MCP client. -/
def idemExec : DefaultToolExecutor :=
  { registry := { local_tools := [("ping", pingFn)], mcp_map := {} }, mcp := none }

def pingCall : ToolCall := { name := "ping", args := [], idempotency_key := "k1" }

def c1call1 : ToolResult × DefaultToolExecutor × AgentState :=
  DefaultToolExecutor.call 0 idemExec baseState pingCall

def c1mid : List ToolResult × DefaultToolExecutor × AgentState :=
  callSeq 0 c1call1.2.1 c1call1.2.2 []

def c1call2 : ToolResult × DefaultToolExecutor × AgentState :=
  DefaultToolExecutor.call 0 c1mid.2.1 c1mid.2.2 pingCall

/-- Policy restricted to the allowlist `["wait"]` (spec boundary case). -/
def allowWaitPolicy : PolicyContext := { tool_allowlist := ["wait"] }

def allowWaitState : AgentState :=
  { run_id := "run2", goal := "goal", status := .ACTING, plan := some samplePlan,
    policy := allowWaitPolicy }

/-- Policy with an empty allowlist and `file_delete` denylisted. -/
def denyListPolicy : PolicyContext := { tool_denylist := ["file_delete"] }

def denyListState : AgentState :=
  { run_id := "run3", goal := "goal", status := .ACTING, plan := some samplePlan,
    policy := denyListPolicy }

def deleteCall : ToolCall := { name := "file_delete", args := [], idempotency_key := "k2" }

/-- An executor that already holds a cached result under key `"k1"`. -/
def cachedExec : DefaultToolExecutor :=
  { idemExec with idem := [("k1", { ok := true, data := .str "pong" })] }

/-- A HIGH-risk step. -/
def highStep : Step := { id := "s2", title := "delete", intent := "delete file", risk := .HIGH }

def highPlan : Plan := { objective := "obj2", steps := [highStep] }

def highRiskState : AgentState :=
  { run_id := "run4", goal := "goal", status := .POLICY_CHECK, plan := some highPlan }

/-- Empty perception snapshot (all optional fields unset). -/
def emptySnap : PerceptionSnapshot := {}

/-- State with a zero total retry budget, entering recovery. -/
def zeroBudgetState : AgentState :=
  { run_id := "run5", goal := "goal", status := .RECOVERING, plan := some samplePlan,
    retry := { total_budget := 0 } }

/-- Trivial recovery policy returning no calls. -/
def noRecovery : AgentState → ToolingConfig → List ToolCall := fun _ _ => []

/-- Verifier that always succeeds with empty details. -/
def verifierTrue : AgentState → ToolingConfig → Bool × Val := fun _ _ => (true, .null)

/-- State ready for verify: valid plan and a perception snapshot. -/
def verifyState : AgentState :=
  { run_id := "run6", goal := "goal", status := .VERIFYING, plan := some samplePlan,
    perception := some emptySnap }

/-- Local `screen_capture` returning a dict with null hash and null b64. -/
def capNullFn : LocalToolFn :=
  fun _ => { ok := true, data := .dict [("hash", .null), ("b64", .null)] }

/-- Executor whose only tool is the null-identity `screen_capture`. -/
def capNullExec : DefaultToolExecutor :=
  { registry := { local_tools := [("screen_capture", capNullFn)], mcp_map := {} }, mcp := none }

/-- State gated by `tool_allowlist=["screen_capture"]` with perception
present (spec scenario 4: policy allowlist denial in the act loop). -/
def denyClickState : AgentState :=
  { run_id := "run7", goal := "goal", status := .ACTING, plan := some samplePlan,
    policy := { tool_allowlist := ["screen_capture"] }, perception := some emptySnap }

/-- Selector producing a single click ToolCall. -/
def clickSelector : AgentState → ToolingConfig → List ToolCall :=
  fun _ _ => [{ name := "click", args := [("x", .int 10), ("y", .int 20)],
                idempotency_key := "kclick" }]

/-- Selector producing a single ping ToolCall. -/
def pingSelector : AgentState → ToolingConfig → List ToolCall :=
  fun _ _ => [pingCall]

/-- State ready for act: valid plan, perception present. -/
def actState : AgentState :=
  { run_id := "run8", goal := "goal", status := .ACTING, plan := some samplePlan,
    perception := some emptySnap }

/-- A terminal (DONE) state. -/
def doneState : AgentState := { run_id := "run9", goal := "goal", status := .DONE }

/-- A state parked in WAITING_APPROVAL with `approved = false`. -/
def waitingState : AgentState :=
  { run_id := "run10", goal := "goal", status := .WAITING_APPROVAL }

/-! ## Basic projection lemmas -/

@[simp] theorem agEvent_policy (now : Int) (st : AgentState) (t : String)
    (a : List (String × Val)) : (agEvent now st t a).policy = st.policy := rfl

@[simp] theorem agEvent_status (now : Int) (st : AgentState) (t : String)
    (a : List (String × Val)) : (agEvent now st t a).status = st.status := rfl

@[simp] theorem agEvent_actions (now : Int) (st : AgentState) (t : String)
    (a : List (String × Val)) : (agEvent now st t a).actions = st.actions := rfl

@[simp] theorem agEvent_plan (now : Int) (st : AgentState) (t : String)
    (a : List (String × Val)) : (agEvent now st t a).plan = st.plan := rfl

@[simp] theorem agEvent_retry (now : Int) (st : AgentState) (t : String)
    (a : List (String × Val)) : (agEvent now st t a).retry = st.retry := rfl

@[simp] theorem agEvent_perception (now : Int) (st : AgentState) (t : String)
    (a : List (String × Val)) : (agEvent now st t a).perception = st.perception := rfl

@[simp] theorem agEvent_approved (now : Int) (st : AgentState) (t : String)
    (a : List (String × Val)) : (agEvent now st t a).approved = st.approved := rfl

@[simp] theorem agEvent_scratch (now : Int) (st : AgentState) (t : String)
    (a : List (String × Val)) : (agEvent now st t a).scratch = st.scratch := rfl

@[simp] theorem agEvent_requires (now : Int) (st : AgentState) (t : String)
    (a : List (String × Val)) :
    (agEvent now st t a).requires_human_approval = st.requires_human_approval := rfl

@[simp] theorem agEvent_last_step (now : Int) (st : AgentState) (t : String)
    (a : List (String × Val)) :
    (agEvent now st t a).last_step_started_ms = st.last_step_started_ms := rfl

@[simp] theorem agEvent_done_reason (now : Int) (st : AgentState) (t : String)
    (a : List (String × Val)) : (agEvent now st t a).done_reason = st.done_reason := rfl

@[simp] theorem agEvent_run_id (now : Int) (st : AgentState) (t : String)
    (a : List (String × Val)) : (agEvent now st t a).run_id = st.run_id := rfl

@[simp] theorem agEvent_goal (now : Int) (st : AgentState) (t : String)
    (a : List (String × Val)) : (agEvent now st t a).goal = st.goal := rfl

@[simp] theorem agEvent_events (now : Int) (st : AgentState) (t : String)
    (a : List (String × Val)) :
    (agEvent now st t a).telemetry.events =
      st.telemetry.events ++ [{ ts_ms := now, type_ := t, attrs := a }] := rfl

@[simp] theorem agSpan_policy (now : Int) (st : AgentState) (n : String) :
    (agSpan now st n).policy = st.policy := rfl

@[simp] theorem agSpan_status (now : Int) (st : AgentState) (n : String) :
    (agSpan now st n).status = st.status := rfl

@[simp] theorem agSpan_actions (now : Int) (st : AgentState) (n : String) :
    (agSpan now st n).actions = st.actions := rfl

@[simp] theorem agSpan_plan (now : Int) (st : AgentState) (n : String) :
    (agSpan now st n).plan = st.plan := rfl

@[simp] theorem agSpan_retry (now : Int) (st : AgentState) (n : String) :
    (agSpan now st n).retry = st.retry := rfl

@[simp] theorem agSpan_perception (now : Int) (st : AgentState) (n : String) :
    (agSpan now st n).perception = st.perception := rfl

@[simp] theorem agSpan_approved (now : Int) (st : AgentState) (n : String) :
    (agSpan now st n).approved = st.approved := rfl

@[simp] theorem agSpan_scratch (now : Int) (st : AgentState) (n : String) :
    (agSpan now st n).scratch = st.scratch := rfl

@[simp] theorem agSpan_last_step (now : Int) (st : AgentState) (n : String) :
    (agSpan now st n).last_step_started_ms = st.last_step_started_ms := rfl

@[simp] theorem agSpan_requires (now : Int) (st : AgentState) (n : String) :
    (agSpan now st n).requires_human_approval = st.requires_human_approval := rfl

@[simp] theorem agSpan_done_reason (now : Int) (st : AgentState) (n : String) :
    (agSpan now st n).done_reason = st.done_reason := rfl

@[simp] theorem agSpan_run_id (now : Int) (st : AgentState) (n : String) :
    (agSpan now st n).run_id = st.run_id := rfl

@[simp] theorem agSpan_goal (now : Int) (st : AgentState) (n : String) :
    (agSpan now st n).goal = st.goal := rfl

@[simp] theorem agSpan_plan_valid (now : Int) (st : AgentState) (n : String) :
    _ensure_plan (agSpan now st n) = _ensure_plan st := rfl

@[simp] theorem agSpan_currentStep (now : Int) (st : AgentState) (n : String) :
    (agSpan now st n).currentStep = st.currentStep := rfl

@[simp] theorem agSpan_timeout (now now2 : Int) (st : AgentState) (n : String) :
    _step_timeout_exceeded now2 (agSpan now st n) = _step_timeout_exceeded now2 st := rfl

@[simp] theorem set_terminal_status (st : AgentState) (now : Int) (s : Status)
    (r : String) (c : Option String) : (st.set_terminal now s r c).status = s := rfl

@[simp] theorem set_terminal_retry (st : AgentState) (now : Int) (s : Status)
    (r : String) (c : Option String) : (st.set_terminal now s r c).retry = st.retry := rfl

@[simp] theorem set_terminal_actions (st : AgentState) (now : Int) (s : Status)
    (r : String) (c : Option String) : (st.set_terminal now s r c).actions = st.actions := rfl

@[simp] theorem set_terminal_done_reason (st : AgentState) (now : Int) (s : Status)
    (r : String) (c : Option String) : (st.set_terminal now s r c).done_reason = some r := rfl

@[simp] theorem set_terminal_error_code (st : AgentState) (now : Int) (s : Status)
    (r : String) (c : Option String) :
    (st.set_terminal now s r c).telemetry.error_code = c := rfl

@[simp] theorem terminal_fail_status (now : Int) (st : AgentState) (r c : String) :
    (_terminal_fail now st r c).status = .FAILED := rfl

@[simp] theorem terminal_fail_error_code (now : Int) (st : AgentState) (r c : String) :
    (_terminal_fail now st r c).telemetry.error_code = some c := rfl

@[simp] theorem terminal_fail_retry (now : Int) (st : AgentState) (r c : String) :
    (_terminal_fail now st r c).retry = st.retry := rfl

@[simp] theorem terminal_fail_plan (now : Int) (st : AgentState) (r c : String) :
    (_terminal_fail now st r c).plan = st.plan := rfl

@[simp] theorem terminal_fail_actions (now : Int) (st : AgentState) (r c : String) :
    (_terminal_fail now st r c).actions = st.actions := rfl

@[simp] theorem terminal_fail_done_reason (now : Int) (st : AgentState) (r c : String) :
    (_terminal_fail now st r c).done_reason = some r := rfl

@[simp] theorem terminal_escalate_status (now : Int) (st : AgentState) (r c : String) :
    (_terminal_escalate now st r c).status = .ESCALATED := rfl

@[simp] theorem terminal_escalate_error_code (now : Int) (st : AgentState) (r c : String) :
    (_terminal_escalate now st r c).telemetry.error_code = some c := rfl

@[simp] theorem terminal_escalate_retry (now : Int) (st : AgentState) (r c : String) :
    (_terminal_escalate now st r c).retry = st.retry := rfl

@[simp] theorem terminal_escalate_plan (now : Int) (st : AgentState) (r c : String) :
    (_terminal_escalate now st r c).plan = st.plan := rfl

@[simp] theorem terminal_escalate_actions (now : Int) (st : AgentState) (r c : String) :
    (_terminal_escalate now st r c).actions = st.actions := rfl

@[simp] theorem terminal_escalate_done_reason (now : Int) (st : AgentState) (r c : String) :
    (_terminal_escalate now st r c).done_reason = some r := rfl

@[simp] theorem terminal_done_status (now : Int) (st : AgentState) (r : String) :
    (_terminal_done now st r).status = .DONE := rfl

@[simp] theorem terminal_done_error_code (now : Int) (st : AgentState) (r : String) :
    (_terminal_done now st r).telemetry.error_code = some ErrorCode.DONE := rfl

@[simp] theorem terminal_done_done_reason (now : Int) (st : AgentState) (r : String) :
    (_terminal_done now st r).done_reason = some r := rfl

@[simp] theorem terminal_done_plan (now : Int) (st : AgentState) (r : String) :
    (_terminal_done now st r).plan = st.plan := rfl

@[simp] theorem terminal_done_retry (now : Int) (st : AgentState) (r : String) :
    (_terminal_done now st r).retry = st.retry := rfl

/-- The `alLookup` on a cons cell. -/
theorem alLookup_cons {α : Type} (k' : String) (v : α) (t : List (String × α)) (k : String) :
    alLookup ((k', v) :: t) k = if k' = k then some v else alLookup t k := rfl

/-! ## Executor behavior lemmas -/

/-- The Boolean outcome of the policy gate coincides with `policyDecision`. -/
theorem policy_allows_ok (pol : PolicyContext) (a : String) :
    (DefaultToolExecutor.policy_allows pol a).1.ok = policyDecision pol a := by
  cases he : pol.tool_allowlist.isEmpty <;>
    by_cases hc : a ∈ pol.tool_allowlist <;>
      by_cases hd : a ∈ pol.tool_denylist <;>
        simp [DefaultToolExecutor.policy_allows, policyDecision, he, hc, hd]

/-- The policy gate mutates only the decision fields. -/
theorem policy_allows_lists (pol : PolicyContext) (a : String) :
    (DefaultToolExecutor.policy_allows pol a).2.tool_allowlist = pol.tool_allowlist ∧
      (DefaultToolExecutor.policy_allows pol a).2.tool_denylist = pol.tool_denylist ∧
      (DefaultToolExecutor.policy_allows pol a).2.require_approval_for_high_risk =
        pol.require_approval_for_high_risk := by
  cases he : pol.tool_allowlist.isEmpty <;>
    by_cases hc : a ∈ pol.tool_allowlist <;>
      by_cases hd : a ∈ pol.tool_denylist <;>
        simp [DefaultToolExecutor.policy_allows, he, hc, hd]

/-- The `policyDecision` only reads the allow/deny lists. -/
theorem policyDecision_congr (p q : PolicyContext) (a : String)
    (hA : p.tool_allowlist = q.tool_allowlist) (hD : p.tool_denylist = q.tool_denylist) :
    policyDecision p a = policyDecision q a := by
  simp [policyDecision, hA, hD]

/-- A policy-denied call returns the gate's ToolResult, leaves the executor
untouched, and only records the decision and one `tool_denied` event. -/
theorem call_denied (now : Int) (ex : DefaultToolExecutor) (st : AgentState) (c : ToolCall)
    (h : policyDecision st.policy c.name = false) :
    DefaultToolExecutor.call now ex st c =
      ((DefaultToolExecutor.policy_allows st.policy c.name).1, ex,
        agEvent now { st with policy := (DefaultToolExecutor.policy_allows st.policy c.name).2 }
          "tool_denied"
          [("tool", .str c.name),
           ("reason", optStrVal (DefaultToolExecutor.policy_allows st.policy c.name).1.error)]) := by
  have hok : (DefaultToolExecutor.policy_allows st.policy c.name).1.ok = false := by
    rw [policy_allows_ok]; exact h
  simp [DefaultToolExecutor.call, hok]

/-- A policy-allowed call whose idempotency key is cached returns the cached
ToolResult unchanged, does not touch the cache, and emits exactly one
`tool_idempotent_hit` event. -/
theorem call_hit (now : Int) (ex : DefaultToolExecutor) (st : AgentState) (c : ToolCall)
    (r : ToolResult) (hallow : policyDecision st.policy c.name = true)
    (hhit : alLookup ex.idem c.idempotency_key = some r) :
    DefaultToolExecutor.call now ex st c =
      (r, ex,
        agEvent now { st with policy := (DefaultToolExecutor.policy_allows st.policy c.name).2 }
          "tool_idempotent_hit" [("tool", .str c.name)]) := by
  have hok : (DefaultToolExecutor.policy_allows st.policy c.name).1.ok = true := by
    rw [policy_allows_ok]; exact hallow
  simp [DefaultToolExecutor.call, hok, hhit]

/-- A policy-allowed call on a fresh idempotency key dispatches, caches the
result under the key, and emits exactly one `tool_called` event. -/
theorem call_miss (now : Int) (ex : DefaultToolExecutor) (st : AgentState) (c : ToolCall)
    (hallow : policyDecision st.policy c.name = true)
    (hmiss : alLookup ex.idem c.idempotency_key = none) :
    DefaultToolExecutor.call now ex st c =
      (ex.dispatch c,
        { ex with idem := (c.idempotency_key, ex.dispatch c) :: ex.idem },
        agEvent now { st with policy := (DefaultToolExecutor.policy_allows st.policy c.name).2 }
          "tool_called" [("tool", .str c.name), ("ok", .bool (ex.dispatch c).ok)]) := by
  have hok : (DefaultToolExecutor.policy_allows st.policy c.name).1.ok = true := by
    rw [policy_allows_ok]; exact hallow
  simp [DefaultToolExecutor.call, hok, hmiss]

/-- One executor call never changes the policy's allow/deny lists. -/
theorem call_policy_lists (now : Int) (ex : DefaultToolExecutor) (st : AgentState)
    (c : ToolCall) :
    ((DefaultToolExecutor.call now ex st c).2.2).policy.tool_allowlist =
        st.policy.tool_allowlist ∧
      ((DefaultToolExecutor.call now ex st c).2.2).policy.tool_denylist =
        st.policy.tool_denylist := by
  cases hd : policyDecision st.policy c.name
  · rw [call_denied now ex st c hd]
    simpa using ⟨(policy_allows_lists st.policy c.name).1,
      (policy_allows_lists st.policy c.name).2.1⟩
  · cases hm : alLookup ex.idem c.idempotency_key with
    | some r =>
      rw [call_hit now ex st c r hd hm]
      simpa using ⟨(policy_allows_lists st.policy c.name).1,
        (policy_allows_lists st.policy c.name).2.1⟩
    | none =>
      rw [call_miss now ex st c hd hm]
      simpa using ⟨(policy_allows_lists st.policy c.name).1,
        (policy_allows_lists st.policy c.name).2.1⟩

/-- One executor call never evicts or overwrites an existing cache entry. -/
theorem call_idem_preserve (now : Int) (ex : DefaultToolExecutor) (st : AgentState)
    (c : ToolCall) (k : String) (r : ToolResult)
    (h : alLookup ex.idem k = some r) :
    alLookup ((DefaultToolExecutor.call now ex st c).2.1).idem k = some r := by
  cases hd : policyDecision st.policy c.name
  · rw [call_denied now ex st c hd]; exact h
  · cases hm : alLookup ex.idem c.idempotency_key with
    | some r' => rw [call_hit now ex st c r' hd hm]; exact h
    | none =>
      rw [call_miss now ex st c hd hm]
      have hne : c.idempotency_key ≠ k := by
        intro hk; rw [hk] at hm; rw [hm] at h; exact Option.noConfusion h
      simpa [alLookup_cons, hne] using h

/-- One executor call leaves every cache slot other than its own key
untouched (present or absent alike). -/
theorem call_idem_frame (now : Int) (ex : DefaultToolExecutor) (st : AgentState)
    (c : ToolCall) (k : String) (hne : c.idempotency_key ≠ k) :
    alLookup ((DefaultToolExecutor.call now ex st c).2.1).idem k =
      alLookup ex.idem k := by
  cases hd : policyDecision st.policy c.name
  · rw [call_denied now ex st c hd]
  · cases hm : alLookup ex.idem c.idempotency_key with
    | some r => rw [call_hit now ex st c r hd hm]
    | none =>
      rw [call_miss now ex st c hd hm]
      show (if c.idempotency_key = k then some (ex.dispatch c) else alLookup ex.idem k) = _
      rw [if_neg hne]

/-- The `callSeq` never changes the policy's allow/deny lists. -/
theorem callSeq_policy_lists (now : Int) :
    ∀ (calls : List ToolCall) (ex : DefaultToolExecutor) (st : AgentState),
      ((callSeq now ex st calls).2.2).policy.tool_allowlist = st.policy.tool_allowlist ∧
        ((callSeq now ex st calls).2.2).policy.tool_denylist = st.policy.tool_denylist := by
  intro calls
  induction calls with
  | nil => intro ex st; exact ⟨rfl, rfl⟩
  | cons c cs ih =>
    intro ex st
    have h1 := call_policy_lists now ex st c
    have h2 := ih (DefaultToolExecutor.call now ex st c).2.1
      (DefaultToolExecutor.call now ex st c).2.2
    exact ⟨by rw [callSeq]; rw [h2.1, h1.1], by rw [callSeq]; rw [h2.2, h1.2]⟩

/-- The `callSeq` never evicts or overwrites an existing cache entry. -/
theorem callSeq_idem_preserve (now : Int) :
    ∀ (calls : List ToolCall) (ex : DefaultToolExecutor) (st : AgentState)
      (k : String) (r : ToolResult),
      alLookup ex.idem k = some r →
        alLookup ((callSeq now ex st calls).2.1).idem k = some r := by
  intro calls
  induction calls with
  | nil => intro ex st k r h; exact h
  | cons c cs ih =>
    intro ex st k r h
    have h1 := call_idem_preserve now ex st c k r h
    rw [callSeq]
    exact ih _ _ k r h1

/-- C1: for every run and idempotency key observed more than once among
policy-allowed executor calls, every call after the first returns exactly
the ToolResult cached at the first observation (failures included); the
replay leaves the cache untouched (no second dispatch) and appends exactly
one `tool_idempotent_hit` telemetry event. -/
theorem executor_idempotent_replay
    (now : Int) (ex : DefaultToolExecutor) (st : AgentState)
    (ci : ToolCall) (mid : List ToolCall) (cj : ToolCall)
    (ri : ToolResult) (ex1 : DefaultToolExecutor) (st1 : AgentState)
    (ex2 : DefaultToolExecutor) (st2 : AgentState)
    (rj : ToolResult) (ex3 : DefaultToolExecutor) (st3 : AgentState)
    (hkey : cj.idempotency_key = ci.idempotency_key)
    (hai : policyDecision st.policy ci.name = true)
    (haj : policyDecision st.policy cj.name = true)
    (hfresh : alLookup ex.idem ci.idempotency_key = none)
    (h1 : DefaultToolExecutor.call now ex st ci = (ri, ex1, st1))
    (h2 : (callSeq now ex1 st1 mid).2 = (ex2, st2))
    (h3 : DefaultToolExecutor.call now ex2 st2 cj = (rj, ex3, st3)) :
    rj = ri ∧ ex3.idem = ex2.idem ∧
      st3.telemetry.events = st2.telemetry.events ++
        [{ ts_ms := now, type_ := "tool_idempotent_hit",
           attrs := [("tool", .str cj.name)] }] := by
  have hmiss := call_miss now ex st ci hai hfresh
  rw [h1] at hmiss
  obtain ⟨hri, hex1, hst1⟩ : ri = ex.dispatch ci ∧
      ex1 = { ex with idem := (ci.idempotency_key, ex.dispatch ci) :: ex.idem } ∧
      st1 = agEvent now
        { st with policy := (DefaultToolExecutor.policy_allows st.policy ci.name).2 }
        "tool_called" [("tool", .str ci.name), ("ok", .bool (ex.dispatch ci).ok)] := by
    refine ⟨congrArg Prod.fst hmiss, ?_, ?_⟩
    · exact congrArg (fun p => p.2.1) hmiss
    · exact congrArg (fun p => p.2.2) hmiss
  have hcached1 : alLookup ex1.idem ci.idempotency_key = some ri := by
    rw [hex1, hri]
    simp [alLookup_cons]
  have hcached2 : alLookup ex2.idem ci.idempotency_key = some ri := by
    have := callSeq_idem_preserve now mid ex1 st1 ci.idempotency_key ri hcached1
    rw [show (callSeq now ex1 st1 mid).2.1 = ex2 from by rw [h2]] at this
    exact this
  have hlists1 : st1.policy.tool_allowlist = st.policy.tool_allowlist ∧
      st1.policy.tool_denylist = st.policy.tool_denylist := by
    rw [hst1]
    simpa using ⟨(policy_allows_lists st.policy ci.name).1,
      (policy_allows_lists st.policy ci.name).2.1⟩
  have hlists2 : st2.policy.tool_allowlist = st.policy.tool_allowlist ∧
      st2.policy.tool_denylist = st.policy.tool_denylist := by
    have := callSeq_policy_lists now mid ex1 st1
    rw [show (callSeq now ex1 st1 mid).2.2 = st2 from by rw [h2]] at this
    exact ⟨this.1.trans hlists1.1, this.2.trans hlists1.2⟩
  have haj2 : policyDecision st2.policy cj.name = true := by
    rw [policyDecision_congr st2.policy st.policy cj.name hlists2.1 hlists2.2]
    exact haj
  have hhit := call_hit now ex2 st2 cj ri haj2 (by rw [hkey]; exact hcached2)
  rw [h3] at hhit
  refine ⟨congrArg Prod.fst hhit, ?_, ?_⟩
  · have := congrArg (fun p => p.2.1) hhit
    simpa using congrArg DefaultToolExecutor.idem this
  · have := congrArg (fun p => p.2.2) hhit
    rw [show st3 = agEvent now
      { st2 with policy := (DefaultToolExecutor.policy_allows st2.policy cj.name).2 }
      "tool_idempotent_hit" [("tool", .str cj.name)] from this]
    simp

/-- A non-empty list has `isEmpty = false`. -/
theorem isEmpty_false_of_ne_nil {α : Type} (l : List α) (h : l ≠ []) :
    l.isEmpty = false := by
  cases l with
  | nil => exact absurd rfl h
  | cons a t => rfl

/-- Shape of the policy gate's output on the allowlist-denial branch. -/
theorem policy_allows_allowlist_deny (pol : PolicyContext) (a : String)
    (hne : pol.tool_allowlist ≠ []) (hnotin : a ∉ pol.tool_allowlist) :
    DefaultToolExecutor.policy_allows pol a =
      ({ ok := false, data := .null, error := some ErrorCode.POLICY_DENY_ALLOWLIST },
       { pol with last_decision := some "DENY",
                  deny_reason := some "Tool not in allowlist" }) := by
  have he := isEmpty_false_of_ne_nil pol.tool_allowlist hne
  simp [DefaultToolExecutor.policy_allows, he, hnotin]

/-- Shape of the policy gate's output on the denylist-denial branch (the
allowlist check passes first, as in the source's if-order). -/
theorem policy_allows_denylist_deny (pol : PolicyContext) (a : String)
    (hpass : pol.tool_allowlist = [] ∨ a ∈ pol.tool_allowlist)
    (hdeny : a ∈ pol.tool_denylist) :
    DefaultToolExecutor.policy_allows pol a =
      ({ ok := false, data := .null, error := some ErrorCode.POLICY_DENY_DENYLIST },
       { pol with last_decision := some "DENY",
                  deny_reason := some "Tool in denylist" }) := by
  cases hpass with
  | inl hnil => simp [DefaultToolExecutor.policy_allows, hnil, hdeny]
  | inr hmem =>
    simp [DefaultToolExecutor.policy_allows, hmem, hdeny]

/-- The gate's decision is negative on the allowlist-denial branch. -/
theorem policyDecision_false_of_allowlist (pol : PolicyContext) (a : String)
    (hne : pol.tool_allowlist ≠ []) (hnotin : a ∉ pol.tool_allowlist) :
    policyDecision pol a = false := by
  have he := isEmpty_false_of_ne_nil pol.tool_allowlist hne
  simp [policyDecision, he, hnotin]

/-- The gate's decision is negative whenever the alias is denylisted. -/
theorem policyDecision_false_of_denylist (pol : PolicyContext) (a : String)
    (hdeny : a ∈ pol.tool_denylist) :
    policyDecision pol a = false := by
  simp [policyDecision, hdeny]

/-- C3: a ToolCall whose alias fails the non-empty allowlist is answered
`{ok:false}` with the allowlist POLICY_DENY error; an alias that passes the
allowlist but is denylisted is answered with the denylist POLICY_DENY
error; in both cases the decision is recorded in
`policy.last_decision`/`deny_reason`, the executor (hence its cache) is
untouched and no dispatch happens (the only telemetry is one `tool_denied`
event).  In particular, with `tool_allowlist=["wait"]` every call to an
alias other than `wait` is denied with the allowlist error. -/
theorem executor_policy_denials (now : Int) (ex : DefaultToolExecutor)
    (st : AgentState) (c : ToolCall) :
    (st.policy.tool_allowlist ≠ [] → c.name ∉ st.policy.tool_allowlist →
      callResult now ex st c =
        { ok := false, data := .null, error := some ErrorCode.POLICY_DENY_ALLOWLIST } ∧
      callExec now ex st c = ex ∧
      (callState now ex st c).policy.last_decision = some "DENY" ∧
      (callState now ex st c).policy.deny_reason = some "Tool not in allowlist" ∧
      (callState now ex st c).telemetry.events = st.telemetry.events ++
        [{ ts_ms := now, type_ := "tool_denied",
           attrs := [("tool", .str c.name),
                     ("reason", .str ErrorCode.POLICY_DENY_ALLOWLIST)] }]) ∧
    ((st.policy.tool_allowlist = [] ∨ c.name ∈ st.policy.tool_allowlist) →
      c.name ∈ st.policy.tool_denylist →
      callResult now ex st c =
        { ok := false, data := .null, error := some ErrorCode.POLICY_DENY_DENYLIST } ∧
      callExec now ex st c = ex ∧
      (callState now ex st c).policy.last_decision = some "DENY" ∧
      (callState now ex st c).policy.deny_reason = some "Tool in denylist" ∧
      (callState now ex st c).telemetry.events = st.telemetry.events ++
        [{ ts_ms := now, type_ := "tool_denied",
           attrs := [("tool", .str c.name),
                     ("reason", .str ErrorCode.POLICY_DENY_DENYLIST)] }]) ∧
    (st.policy.tool_allowlist = ["wait"] → c.name ≠ "wait" →
      callResult now ex st c =
        { ok := false, data := .null, error := some ErrorCode.POLICY_DENY_ALLOWLIST } ∧
      callExec now ex st c = ex) := by
  have allow_case : st.policy.tool_allowlist ≠ [] → c.name ∉ st.policy.tool_allowlist →
      callResult now ex st c =
        { ok := false, data := .null, error := some ErrorCode.POLICY_DENY_ALLOWLIST } ∧
      callExec now ex st c = ex ∧
      (callState now ex st c).policy.last_decision = some "DENY" ∧
      (callState now ex st c).policy.deny_reason = some "Tool not in allowlist" ∧
      (callState now ex st c).telemetry.events = st.telemetry.events ++
        [{ ts_ms := now, type_ := "tool_denied",
           attrs := [("tool", .str c.name),
                     ("reason", .str ErrorCode.POLICY_DENY_ALLOWLIST)] }] := by
    intro hne hnotin
    have hpa := policy_allows_allowlist_deny st.policy c.name hne hnotin
    have hdec := policyDecision_false_of_allowlist st.policy c.name hne hnotin
    have hc := call_denied now ex st c hdec
    refine ⟨?_, ?_, ?_, ?_, ?_⟩
    · rw [callResult, hc, hpa]
    · rw [callExec, hc]
    · rw [callState, hc, hpa]; rfl
    · rw [callState, hc, hpa]; rfl
    · rw [callState, hc, hpa]
      simp [optStrVal]
  refine ⟨allow_case, ?_, ?_⟩
  · intro hpass hdeny
    have hpa := policy_allows_denylist_deny st.policy c.name hpass hdeny
    have hdec := policyDecision_false_of_denylist st.policy c.name hdeny
    have hc := call_denied now ex st c hdec
    refine ⟨?_, ?_, ?_, ?_, ?_⟩
    · rw [callResult, hc, hpa]
    · rw [callExec, hc]
    · rw [callState, hc, hpa]; rfl
    · rw [callState, hc, hpa]; rfl
    · rw [callState, hc, hpa]
      simp [optStrVal]
  · intro hwait hnw
    have hne : st.policy.tool_allowlist ≠ [] := by rw [hwait]; simp
    have hnotin : c.name ∉ st.policy.tool_allowlist := by
      rw [hwait]; simp [hnw]
    have h := allow_case hne hnotin
    exact ⟨h.1, h.2.1⟩

/-- Witness for C3: the allowlist `["wait"]` denies `click`, and a policy
with `file_delete` denylisted denies `file_delete` — both without touching
the executor. -/
theorem executor_policy_denials_witness :
    (callResult 0 idemExec allowWaitState
        { name := "click", args := [], idempotency_key := "kc" } =
      { ok := false, data := .null, error := some ErrorCode.POLICY_DENY_ALLOWLIST } ∧
     callExec 0 idemExec allowWaitState
        { name := "click", args := [], idempotency_key := "kc" } = idemExec) ∧
    (callResult 0 idemExec denyListState deleteCall =
      { ok := false, data := .null, error := some ErrorCode.POLICY_DENY_DENYLIST } ∧
     callExec 0 idemExec denyListState deleteCall = idemExec ∧
     (callState 0 idemExec denyListState deleteCall).policy.last_decision = some "DENY" ∧
     (callState 0 idemExec denyListState deleteCall).policy.deny_reason =
       some "Tool in denylist" ∧
     (callState 0 idemExec denyListState deleteCall).telemetry.events =
       denyListState.telemetry.events ++
         [{ ts_ms := 0, type_ := "tool_denied",
            attrs := [("tool", .str "file_delete"),
                      ("reason", .str ErrorCode.POLICY_DENY_DENYLIST)] }]) :=
  ⟨(executor_policy_denials 0 idemExec allowWaitState
      { name := "click", args := [], idempotency_key := "kc" }).2.2
      (by decide) (by decide),
   (executor_policy_denials 0 idemExec denyListState deleteCall).2.1
      (Or.inl (by decide)) (by decide)⟩

/-- The policy gate, when it denies, returns a failure and records `DENY`
with some reason while leaving the lists untouched. -/
theorem policy_allows_denied_shape (pol : PolicyContext) (a : String)
    (h : policyDecision pol a = false) :
    ∃ reason : String,
      (DefaultToolExecutor.policy_allows pol a).2 =
        { pol with last_decision := some "DENY", deny_reason := some reason } := by
  cases he : pol.tool_allowlist.isEmpty
  · by_cases hmem : a ∈ pol.tool_allowlist
    · by_cases hd : a ∈ pol.tool_denylist
      · exact ⟨"Tool in denylist", by
          rw [policy_allows_denylist_deny pol a (Or.inr hmem) hd]⟩
      · exfalso
        rw [policyDecision, he] at h
        simp [hmem, hd] at h
    · have hne : pol.tool_allowlist ≠ [] := by
        intro hnil; rw [hnil] at he; exact Bool.noConfusion he
      exact ⟨"Tool not in allowlist", by
        rw [policy_allows_allowlist_deny pol a hne hmem]⟩
  · have hnil : pol.tool_allowlist = [] := by
      cases hl : pol.tool_allowlist with
      | nil => rfl
      | cons x t => rw [hl] at he; exact Bool.noConfusion he
    by_cases hd : a ∈ pol.tool_denylist
    · exact ⟨"Tool in denylist", by
        rw [policy_allows_denylist_deny pol a (Or.inl hnil) hd]⟩
    · exfalso
      rw [policyDecision, hnil] at h
      simp [hd] at h

/-- C10: a policy-denied call returns before the idempotency lookup — the
executor (cache included) is returned unchanged, so nothing is inserted
under the call's key, any previously cached result under that key is
neither returned (the result is the gate's fresh denial) nor evicted, no
dispatch occurs, and the only state changes are the policy decision fields
and a single `tool_denied` telemetry event. -/
theorem executor_denial_bypasses_cache (now : Int) (ex : DefaultToolExecutor)
    (st : AgentState) (c : ToolCall)
    (hdeny : policyDecision st.policy c.name = false) :
    callExec now ex st c = ex ∧
    alLookup (callExec now ex st c).idem c.idempotency_key =
      alLookup ex.idem c.idempotency_key ∧
    callResult now ex st c = (DefaultToolExecutor.policy_allows st.policy c.name).1 ∧
    (callResult now ex st c).ok = false ∧
    (∃ reason : String,
      callState now ex st c =
        { st with
          policy := { st.policy with
            last_decision := some "DENY", deny_reason := some reason }
          telemetry := { st.telemetry with events := st.telemetry.events ++
            [{ ts_ms := now, type_ := "tool_denied",
               attrs := [("tool", .str c.name),
                         ("reason", optStrVal (callResult now ex st c).error)] }] } }) := by
  have hc := call_denied now ex st c hdeny
  obtain ⟨reason, hshape⟩ := policy_allows_denied_shape st.policy c.name hdeny
  refine ⟨by rw [callExec, hc], by rw [callExec, hc], by rw [callResult, hc], ?_, ?_⟩
  · rw [callResult, hc, policy_allows_ok]
    exact hdeny
  · refine ⟨reason, ?_⟩
    rw [callState, callResult, hc, hshape]
    rfl

/-- Witness for C10: denying `click` under allowlist `["wait"]` leaves an
executor holding a cached `"k1"` entry entirely unchanged. -/
theorem executor_denial_bypasses_cache_witness :
    callExec 0 cachedExec allowWaitState
        { name := "click", args := [], idempotency_key := "k1" } = cachedExec ∧
    alLookup (callExec 0 cachedExec allowWaitState
        { name := "click", args := [], idempotency_key := "k1" }).idem "k1" =
      alLookup cachedExec.idem "k1" ∧
    callResult 0 cachedExec allowWaitState
        { name := "click", args := [], idempotency_key := "k1" } =
      (DefaultToolExecutor.policy_allows allowWaitState.policy "click").1 ∧
    (callResult 0 cachedExec allowWaitState
        { name := "click", args := [], idempotency_key := "k1" }).ok = false ∧
    (∃ reason : String,
      callState 0 cachedExec allowWaitState
          { name := "click", args := [], idempotency_key := "k1" } =
        { allowWaitState with
          policy := { allowWaitState.policy with
            last_decision := some "DENY", deny_reason := some reason }
          telemetry := { allowWaitState.telemetry with
            events := allowWaitState.telemetry.events ++
              [{ ts_ms := 0, type_ := "tool_denied",
                 attrs := [("tool", .str "click"),
                           ("reason", optStrVal (callResult 0 cachedExec allowWaitState
                              { name := "click", args := [],
                                idempotency_key := "k1" }).error)] }] } }) :=
  executor_denial_bypasses_cache 0 cachedExec allowWaitState
    { name := "click", args := [], idempotency_key := "k1" } (by decide)

/-- C2: under `node_policy_check`, for a valid plan whose current step is
HIGH risk with `require_approval_for_high_risk` set: an unapproved state is
parked (`requires_human_approval=true`, `status=WAITING_APPROVAL`), an
approved one proceeds (`requires_human_approval=false`, `status=ACTING`);
and whenever the node emits `ACTING` the approval flag is cleared, so it
never produces `ACTING` with `requires_human_approval` still set. -/
theorem policy_check_high_risk_gate (now : Int) (st : AgentState) (p : Plan) (r : AgentState)
    (hp : st.plan = some p) (hv : p.is_valid = true)
    (hr : r = node_policy_check now st) :
    (p.current.risk = .HIGH → st.policy.require_approval_for_high_risk = true →
      ((st.approved = false →
          r.requires_human_approval = true ∧ r.status = .WAITING_APPROVAL ∧
          r.policy.last_decision = some "REQUIRE_APPROVAL") ∧
       (st.approved = true →
          r.requires_human_approval = false ∧ r.status = .ACTING))) ∧
    (r.status = .ACTING → r.requires_human_approval = false ∧ r.approved = st.approved) := by
  have hep : _ensure_plan st = true := by simp [_ensure_plan, hp, hv]
  have hcs : st.currentStep = p.current := by
    simp [AgentState.currentStep, hp]
  subst hr
  constructor
  · intro hrisk hreq
    constructor
    · intro happ
      simp [node_policy_check, hep, hcs, hrisk, hreq, happ]
    · intro happ
      simp [node_policy_check, hep, hcs, hrisk, hreq, happ]
  · intro hact
    by_cases hb : (st.policy.require_approval_for_high_risk &&
        st.currentStep.risk == Risk.HIGH && !st.approved)
    · exfalso
      simp [node_policy_check, hep, hb] at hact
    · simp [node_policy_check, hep, hb]

/-- Witness for C2: the HIGH-risk state with `approved=false` is parked in
WAITING_APPROVAL with the approval flag raised. -/
theorem policy_check_high_risk_gate_witness :
    (node_policy_check 0 highRiskState).requires_human_approval = true ∧
      (node_policy_check 0 highRiskState).status = .WAITING_APPROVAL ∧
      (node_policy_check 0 highRiskState).policy.last_decision = some "REQUIRE_APPROVAL" :=
  ((policy_check_high_risk_gate 0 highRiskState highPlan
      (node_policy_check 0 highRiskState) rfl (by decide) rfl).1
    rfl rfl).1 rfl

/-- Full frame of one executor call on the agent state: only `policy` and
`telemetry` may change. -/
theorem call_frame (now : Int) (ex : DefaultToolExecutor) (st : AgentState) (c : ToolCall) :
    (callState now ex st c).status = st.status ∧
    (callState now ex st c).actions = st.actions ∧
    (callState now ex st c).plan = st.plan ∧
    (callState now ex st c).retry = st.retry ∧
    (callState now ex st c).perception = st.perception ∧
    (callState now ex st c).approved = st.approved ∧
    (callState now ex st c).requires_human_approval = st.requires_human_approval ∧
    (callState now ex st c).last_step_started_ms = st.last_step_started_ms ∧
    (callState now ex st c).scratch = st.scratch ∧
    (callState now ex st c).run_id = st.run_id ∧
    (callState now ex st c).done_reason = st.done_reason := by
  rw [callState]
  cases hd : policyDecision st.policy c.name
  · rw [call_denied now ex st c hd]
    exact ⟨rfl, rfl, rfl, rfl, rfl, rfl, rfl, rfl, rfl, rfl, rfl⟩
  · cases hm : alLookup ex.idem c.idempotency_key with
    | some r =>
      rw [call_hit now ex st c r hd hm]
      exact ⟨rfl, rfl, rfl, rfl, rfl, rfl, rfl, rfl, rfl, rfl, rfl⟩
    | none =>
      rw [call_miss now ex st c hd hm]
      exact ⟨rfl, rfl, rfl, rfl, rfl, rfl, rfl, rfl, rfl, rfl, rfl⟩

@[simp] theorem record_action_retry (st : AgentState) (tool : String)
    (args : List (String × Val)) (k : String) (s e : Int) (ok : Bool)
    (err : Option String) (fp : Option Val) :
    (_record_action st tool args k s e ok err fp).retry = st.retry := rfl

@[simp] theorem record_action_status (st : AgentState) (tool : String)
    (args : List (String × Val)) (k : String) (s e : Int) (ok : Bool)
    (err : Option String) (fp : Option Val) :
    (_record_action st tool args k s e ok err fp).status = st.status := rfl

@[simp] theorem record_action_plan (st : AgentState) (tool : String)
    (args : List (String × Val)) (k : String) (s e : Int) (ok : Bool)
    (err : Option String) (fp : Option Val) :
    (_record_action st tool args k s e ok err fp).plan = st.plan := rfl

@[simp] theorem record_action_perception (st : AgentState) (tool : String)
    (args : List (String × Val)) (k : String) (s e : Int) (ok : Bool)
    (err : Option String) (fp : Option Val) :
    (_record_action st tool args k s e ok err fp).perception = st.perception := rfl

@[simp] theorem record_action_scratch (st : AgentState) (tool : String)
    (args : List (String × Val)) (k : String) (s e : Int) (ok : Bool)
    (err : Option String) (fp : Option Val) :
    (_record_action st tool args k s e ok err fp).scratch = st.scratch := rfl

@[simp] theorem record_action_actions (st : AgentState) (tool : String)
    (args : List (String × Val)) (k : String) (s e : Int) (ok : Bool)
    (err : Option String) (fp : Option Val) :
    (_record_action st tool args k s e ok err fp).actions = st.actions ++
      [{ action_id := new_id "act", tool := tool, args := args, idempotency_key := k,
         started_ms := s, ended_ms := some e, ok := some ok, error := err,
         effect_fingerprint := fp }] := rfl

@[simp] theorem set_terminal_plan (st : AgentState) (now : Int) (s : Status)
    (r : String) (c : Option String) : (st.set_terminal now s r c).plan = st.plan := rfl

/-- The recovery loop never touches the retry budget. -/
theorem recover_loop_retry (now : Int) :
    ∀ (calls : List ToolCall) (ex : DefaultToolExecutor) (st : AgentState),
      ((recover_loop now calls ex st).1).retry = st.retry := by
  intro calls
  induction calls with
  | nil => intro ex st; rfl
  | cons c cs ih =>
    intro ex st
    have hframe := (call_frame now ex st c).2.2.2.1
    rw [callState] at hframe
    rw [recover_loop]
    split
    · simp [hframe]
    · rw [ih]
      simp [hframe]

/-- Looking up the key just stored. -/
theorem alStore_lookup_self {α : Type} :
    ∀ (l : List (String × α)) (k : String) (v : α),
      alLookup (alStore l k v) k = some v := by
  intro l
  induction l with
  | nil => intro k v; simp [alStore, alLookup]
  | cons h t ih =>
    intro k v
    by_cases hk : h.1 = k
    · simp [alStore, hk, alLookup]
    · cases h with
      | mk k' v' =>
        simp only [alStore]
        rw [if_neg hk]
        simp only [alLookup]
        rw [if_neg hk]
        exact ih k v

/-- Looking up another key after a store. -/
theorem alStore_lookup_other {α : Type} :
    ∀ (l : List (String × α)) (k k2 : String) (v : α), k ≠ k2 →
      alLookup (alStore l k v) k2 = alLookup l k2 := by
  intro l
  induction l with
  | nil => intro k k2 v hne; simp [alStore, alLookup, hne]
  | cons h t ih =>
    intro k k2 v hne
    cases h with
    | mk k' v' =>
      by_cases hk : k' = k
      · simp only [alStore]
        rw [if_pos hk]
        simp only [alLookup]
        rw [if_neg (hk ▸ hne), if_neg (by rw [hk]; exact hne)]
      · simp only [alStore]
        rw [if_neg hk]
        simp only [alLookup]
        by_cases h2 : k' = k2
        · rw [if_pos h2, if_pos h2]
        · rw [if_neg h2, if_neg h2]
          exact ih k k2 v hne

/-- The `can_retry_step` in arithmetic form. -/
theorem can_retry_step_iff (rb : RetryBudget) (sid : String) (smax : Nat) :
    rb.can_retry_step sid smax = true ↔
      rb.used < rb.total_budget ∧ rb.count sid < smax := by
  rw [RetryBudget.can_retry_step]
  by_cases hu : rb.used ≥ rb.total_budget
  · rw [if_pos hu]
    simp only [Bool.false_eq_true, false_iff, not_and]
    intro h
    omega
  · rw [if_neg hu]
    simp only [decide_eq_true_eq]
    exact ⟨fun h => ⟨by omega, h⟩, fun h => h.2⟩

/-- C4: under `node_recover` with a valid plan: if the run budget is spent
or the step's retries are spent, the node fails terminally with
RETRY_EXHAUSTED and consumes nothing; otherwise it consumes exactly one
unit from both counters.  Consequently `used ≤ total_budget` and the
current step's count stays within `max_retries`, counts of other steps are
untouched, and `total_budget = 0` forces FAILED/RETRY_EXHAUSTED on the
first recover. -/
theorem recover_retry_budget (now : Int) (st : AgentState) (ex : DefaultToolExecutor)
    (tooling : ToolingConfig) (recovery : AgentState → ToolingConfig → List ToolCall)
    (p : Plan) (r : AgentState)
    (hp : st.plan = some p) (hv : p.is_valid = true)
    (hr : r = (node_recover now st ex tooling recovery).1) :
    ((st.retry.used ≥ st.retry.total_budget ∨
        st.retry.count p.current.id ≥ p.current.max_retries) →
      r.status = .FAILED ∧ r.telemetry.error_code = some ErrorCode.RETRY_EXHAUSTED ∧
      r.retry = st.retry) ∧
    ((st.retry.used < st.retry.total_budget ∧
        st.retry.count p.current.id < p.current.max_retries) →
      r.retry.used = st.retry.used + 1 ∧
      r.retry.count p.current.id = st.retry.count p.current.id + 1 ∧
      r.retry.total_budget = st.retry.total_budget ∧
      (∀ sid, sid ≠ p.current.id → r.retry.count sid = st.retry.count sid)) ∧
    (st.retry.used ≤ st.retry.total_budget → r.retry.used ≤ r.retry.total_budget) ∧
    (st.retry.count p.current.id ≤ p.current.max_retries →
      r.retry.count p.current.id ≤ p.current.max_retries) ∧
    (st.retry.total_budget = 0 →
      r.status = .FAILED ∧ r.telemetry.error_code = some ErrorCode.RETRY_EXHAUSTED) := by
  have hep : _ensure_plan st = true := by simp [_ensure_plan, hp, hv]
  have hcs : st.currentStep = p.current := by
    simp [AgentState.currentStep, hp]
  have exhausted : st.retry.can_retry_step p.current.id p.current.max_retries = false →
      r.status = .FAILED ∧ r.telemetry.error_code = some ErrorCode.RETRY_EXHAUSTED ∧
      r.retry = st.retry := by
    intro hcan
    subst hr
    simp [node_recover, hep, hcs, hcan]
  have consumed : st.retry.can_retry_step p.current.id p.current.max_retries = true →
      r.retry = st.retry.consume p.current.id := by
    intro hcan
    subst hr
    rw [node_recover]
    simp only [agSpan_plan_valid, hep, Bool.not_true, agSpan_currentStep, hcs,
      agSpan_retry, hcan, Bool.not_false, Bool.false_eq_true, if_false, if_true]
    split <;> simp [recover_loop_retry now]
  constructor
  · intro h
    apply exhausted
    cases hcan : st.retry.can_retry_step p.current.id p.current.max_retries
    · rfl
    · exfalso
      have := (can_retry_step_iff st.retry p.current.id p.current.max_retries).1 hcan
      omega
  constructor
  · intro h
    have hcan : st.retry.can_retry_step p.current.id p.current.max_retries = true :=
      (can_retry_step_iff st.retry p.current.id p.current.max_retries).2 h
    have hret := consumed hcan
    refine ⟨by rw [hret]; rfl, ?_, by rw [hret]; rfl, ?_⟩
    · rw [hret]
      show ((alLookup (alStore st.retry.step_retry_counts p.current.id
        (st.retry.count p.current.id + 1)) p.current.id).getD 0) = _
      rw [alStore_lookup_self]
      rfl
    · intro sid hsid
      rw [hret]
      show ((alLookup (alStore st.retry.step_retry_counts p.current.id
        (st.retry.count p.current.id + 1)) sid).getD 0) = _
      rw [alStore_lookup_other _ _ _ _ (fun h2 => hsid (h2.symm))]
      rfl
  constructor
  · intro hinv
    cases hcan : st.retry.can_retry_step p.current.id p.current.max_retries
    · rw [(exhausted hcan).2.2]
      exact hinv
    · have harith := (can_retry_step_iff st.retry p.current.id p.current.max_retries).1 hcan
      have hret := consumed hcan
      rw [hret]
      show st.retry.used + 1 ≤ st.retry.total_budget
      omega
  constructor
  · intro hinv
    cases hcan : st.retry.can_retry_step p.current.id p.current.max_retries
    · rw [(exhausted hcan).2.2]
      exact hinv
    · have harith := (can_retry_step_iff st.retry p.current.id p.current.max_retries).1 hcan
      have hret := consumed hcan
      rw [hret]
      show ((alLookup (alStore st.retry.step_retry_counts p.current.id
        (st.retry.count p.current.id + 1)) p.current.id).getD 0) ≤ _
      rw [alStore_lookup_self]
      show st.retry.count p.current.id + 1 ≤ p.current.max_retries
      omega
  · intro hzero
    have hcan : st.retry.can_retry_step p.current.id p.current.max_retries = false := by
      cases hcan : st.retry.can_retry_step p.current.id p.current.max_retries
      · rfl
      · have := (can_retry_step_iff st.retry p.current.id p.current.max_retries).1 hcan
        omega
    exact ⟨(exhausted hcan).1, (exhausted hcan).2.1⟩

/-- Witness for C4: with `total_budget = 0` the first recover fails with
RETRY_EXHAUSTED and the budget is untouched. -/
theorem recover_retry_budget_witness :
    (node_recover 0 zeroBudgetState idemExec {} noRecovery).1.status = .FAILED ∧
      (node_recover 0 zeroBudgetState idemExec {} noRecovery).1.telemetry.error_code =
        some ErrorCode.RETRY_EXHAUSTED ∧
      (node_recover 0 zeroBudgetState idemExec {} noRecovery).1.retry = zeroBudgetState.retry :=
  (recover_retry_budget 0 zeroBudgetState idemExec {} noRecovery samplePlan
      (node_recover 0 zeroBudgetState idemExec {} noRecovery).1 rfl (by decide) rfl).1
    (Or.inl (by decide))

/-- C5: under `node_verify` with a valid plan, perception present and no
step timeout: a successful verification advances `current_step_idx` by
exactly 1; if the new index is past the last step the run terminates DONE,
otherwise `last_step_started_ms` is reset to the current time and the
status becomes PERCEIVING; a failed verification sets RECOVERING. -/
theorem verify_advances_step (now : Int) (st : AgentState) (tooling : ToolingConfig)
    (verifier : AgentState → ToolingConfig → Bool × Val) (p : Plan) (r : AgentState)
    (hp : st.plan = some p) (hv : p.is_valid = true)
    (hperc : st.perception.isSome = true)
    (ht : _step_timeout_exceeded now st = false)
    (hr : r = node_verify now st tooling verifier) :
    ((verifier (agSpan now st "node_verify") tooling).1 = true →
      (∃ p2, r.plan = some p2 ∧ p2.current_step_idx = p.current_step_idx + 1) ∧
      (p.current_step_idx + 1 ≥ (p.steps.length : Int) →
        r.status = .DONE ∧ r.done_reason = some "All steps completed" ∧
        r.telemetry.error_code = some ErrorCode.DONE) ∧
      (p.current_step_idx + 1 < (p.steps.length : Int) →
        r.status = .PERCEIVING ∧ r.last_step_started_ms = some now)) ∧
    ((verifier (agSpan now st "node_verify") tooling).1 = false →
      r.status = .RECOVERING) := by
  have hep : _ensure_plan st = true := by simp [_ensure_plan, hp, hv]
  have hpn : st.perception.isNone = false := by
    cases ho : st.perception
    · rw [ho] at hperc; exact Bool.noConfusion hperc
    · rfl
  subst hr
  constructor
  · intro hok
    rw [node_verify]
    simp only [agSpan_plan_valid, hep, Bool.not_true, Bool.false_eq_true, if_false,
      agSpan_perception, hpn, agSpan_timeout, ht, agSpan_currentStep, agSpan_plan, hok,
      if_true, hp, Option.getD_some]
    constructor
    · rw [Plan.advance]
      split
      · exact ⟨{ p with current_step_idx := p.current_step_idx + 1 }, by simp, rfl⟩
      · exact ⟨{ p with current_step_idx := p.current_step_idx + 1 }, by simp, rfl⟩
    constructor
    · intro hge
      rw [Plan.advance]
      simp only [show ({ p with current_step_idx := p.current_step_idx + 1} :
        Plan).current_step_idx = p.current_step_idx + 1 from rfl]
      rw [if_pos (by simpa using hge)]
      simp
    · intro hlt
      rw [Plan.advance]
      simp only [show ({ p with current_step_idx := p.current_step_idx + 1} :
        Plan).current_step_idx = p.current_step_idx + 1 from rfl]
      rw [if_neg (by simpa using Int.not_le.mpr hlt)]
      simp
  · intro hko
    rw [node_verify]
    simp only [agSpan_plan_valid, hep, Bool.not_true, Bool.false_eq_true, if_false,
      agSpan_perception, hpn, agSpan_timeout, ht, agSpan_currentStep, hko,
      Bool.true_eq_false, if_true]

/-- Witness for C5: a one-step plan with a succeeding verifier terminates
DONE with the index advanced to 1. -/
theorem verify_advances_step_witness :
    (∃ p2, (node_verify 0 verifyState {} verifierTrue).plan = some p2 ∧
      p2.current_step_idx = samplePlan.current_step_idx + 1) ∧
    (node_verify 0 verifyState {} verifierTrue).status = .DONE ∧
    (node_verify 0 verifyState {} verifierTrue).done_reason = some "All steps completed" ∧
    (node_verify 0 verifyState {} verifierTrue).telemetry.error_code =
      some ErrorCode.DONE :=
  ⟨((verify_advances_step 0 verifyState {} verifierTrue samplePlan
        (node_verify 0 verifyState {} verifierTrue) rfl (by decide) (by decide)
        (by decide) rfl).1 rfl).1,
   ((verify_advances_step 0 verifyState {} verifierTrue samplePlan
        (node_verify 0 verifyState {} verifierTrue) rfl (by decide) (by decide)
        (by decide) rfl).1 rfl).2.1 (by decide)⟩

/-- Counterexample for C6 as stated: `route_from_recover` on the
non-terminal, unexpected status ACTING (node_recover only produces
PERCEIVING, FAILED or ESCALATED) routes to `perceive`, not to the claimed
`recover` safe default; and `route_from_finalize` on the terminal DONE
state returns `end`, not `finalize`. -/
theorem router_safe_default_counterexample :
    terminal3 actState.status = false ∧
    route_from_recover actState = NODE_PERCEIVE ∧
    route_from_recover actState ≠ NODE_RECOVER ∧
    terminal3 doneState.status = true ∧
    route_from_finalize doneState = NODE_END ∧
    route_from_finalize doneState ≠ NODE_FINALIZE := by
  refine ⟨by decide, by decide, ?_, by decide, by decide, ?_⟩
  · intro h
    exact absurd h (by decide)
  · intro h
    exact absurd h (by decide)

/-- C6 (amended): every router except `route_from_finalize` maps the
terminal statuses FAILED/ESCALATED/DONE to `finalize`
(`route_from_finalize` always returns the end marker); unexpected
non-terminal statuses route to `recover` for the plan, perceive,
policy_check, act and verify routers; `route_from_initialize` sends every
non-terminal status to `plan`, `route_from_recover` defaults to `perceive`
(or `plan` under `force_replan`), and `route_from_waiting_approval` routes
by the `approved` flag alone. -/
theorem router_terminal_and_defaults (st : AgentState) :
    (terminal3 st.status = true →
      route_from_initialize st = NODE_FINALIZE ∧
      route_from_plan st = NODE_FINALIZE ∧
      route_from_perceive st = NODE_FINALIZE ∧
      route_from_policy_check st = NODE_FINALIZE ∧
      route_from_waiting_approval st = NODE_FINALIZE ∧
      route_from_act st = NODE_FINALIZE ∧
      route_from_verify st = NODE_FINALIZE ∧
      route_from_recover st = NODE_FINALIZE) ∧
    route_from_finalize st = NODE_END ∧
    (terminal3 st.status = false →
      (st.status ≠ .PERCEIVING → route_from_plan st = NODE_RECOVER) ∧
      (st.status ≠ .POLICY_CHECK → st.status ≠ .RECOVERING →
        route_from_perceive st = NODE_RECOVER) ∧
      (st.status ≠ .WAITING_APPROVAL → st.status ≠ .ACTING →
        route_from_policy_check st = NODE_RECOVER) ∧
      (st.status ≠ .VERIFYING → st.status ≠ .RECOVERING →
        route_from_act st = NODE_RECOVER) ∧
      (st.status ≠ .PERCEIVING → st.status ≠ .RECOVERING →
        route_from_verify st = NODE_RECOVER) ∧
      route_from_initialize st = NODE_PLAN ∧
      (st.status ≠ .PERCEIVING → force_replan_set st = false →
        route_from_recover st = NODE_PERCEIVE) ∧
      (st.approved = true → route_from_waiting_approval st = NODE_POLICY) ∧
      (st.approved = false → route_from_waiting_approval st = NODE_WAIT_APPROVAL)) := by
  cases hs : st.status <;>
    by_cases hf : force_replan_set st <;>
      cases ha : st.approved <;>
        simp [ route_from_initialize, route_from_plan, route_from_perceive,
          route_from_policy_check, route_from_waiting_approval, route_from_act,
          route_from_verify, route_from_recover, route_from_finalize,
          terminal3, hs, hf, ha]

/-- Witness for C6 (amended): a DONE state routes to `finalize` from the
verify router, the ACTING state routes to `recover` from the plan router,
and an unapproved WAITING_APPROVAL state keeps waiting. -/
theorem router_terminal_and_defaults_witness :
    route_from_verify doneState = NODE_FINALIZE ∧
    route_from_plan actState = NODE_RECOVER ∧
    route_from_waiting_approval waitingState = NODE_WAIT_APPROVAL :=
  ⟨((router_terminal_and_defaults doneState).1 (by decide)).2.2.2.2.2.2.1,
   (((router_terminal_and_defaults actState).2.2 (by decide)).1 (by decide)),
   (((router_terminal_and_defaults waitingState).2.2 (by decide)).2.2.2.2.2.2.2.2 rfl)⟩

/-- One executor call preserves the state's status. -/
theorem callState_status (now : Int) (ex : DefaultToolExecutor) (st : AgentState)
    (c : ToolCall) : (DefaultToolExecutor.call now ex st c).2.2.status = st.status := by
  have h := (call_frame now ex st c).1
  rwa [callState] at h

/-- One executor call preserves the audit log. -/
theorem callState_actions (now : Int) (ex : DefaultToolExecutor) (st : AgentState)
    (c : ToolCall) : (DefaultToolExecutor.call now ex st c).2.2.actions = st.actions := by
  have h := (call_frame now ex st c).2.1
  rwa [callState] at h

/-- One executor call preserves the plan. -/
theorem callState_plan (now : Int) (ex : DefaultToolExecutor) (st : AgentState)
    (c : ToolCall) : (DefaultToolExecutor.call now ex st c).2.2.plan = st.plan := by
  have h := (call_frame now ex st c).2.2.1
  rwa [callState] at h

/-- One executor call preserves the retry budget. -/
theorem callState_retry (now : Int) (ex : DefaultToolExecutor) (st : AgentState)
    (c : ToolCall) : (DefaultToolExecutor.call now ex st c).2.2.retry = st.retry := by
  have h := (call_frame now ex st c).2.2.2.1
  rwa [callState] at h

/-- The ToolResult returned by `act_step` is the main call's result
(independent of the post-action capture). -/
theorem act_step_res (now : Int) (tooling : ToolingConfig) (pac : Bool) (c : ToolCall)
    (ex : DefaultToolExecutor) (st : AgentState) :
    (act_step now tooling pac c ex st).2.2 =
      (DefaultToolExecutor.call now ex st c).1 := rfl

/-- The `act_step` preserves status, plan and retry, and appends exactly one
ActionRecord. -/
theorem act_step_frame (now : Int) (tooling : ToolingConfig) (pac : Bool) (c : ToolCall)
    (ex : DefaultToolExecutor) (st : AgentState) :
    (act_step now tooling pac c ex st).1.status = st.status ∧
    (act_step now tooling pac c ex st).1.plan = st.plan ∧
    (act_step now tooling pac c ex st).1.retry = st.retry ∧
    (act_step now tooling pac c ex st).1.actions.length = st.actions.length + 1 := by
  rw [act_step]
  split
  · refine ⟨?_, ?_, ?_, ?_⟩ <;>
      simp [callState_status, callState_plan, callState_retry, callState_actions]
  · refine ⟨?_, ?_, ?_, ?_⟩ <;>
      simp [callState_status, callState_plan, callState_retry, callState_actions]

/-- The record appended by `act_step`, seen through its audit-relevant
fields (everything except the opaque id and the effect fingerprint). -/
theorem act_step_actions_map (now : Int) (tooling : ToolingConfig) (pac : Bool)
    (c : ToolCall) (ex : DefaultToolExecutor) (st : AgentState) :
    (act_step now tooling pac c ex st).1.actions.map
        (fun a => (a.tool, a.args, a.idempotency_key, a.ok, a.error)) =
      st.actions.map (fun a => (a.tool, a.args, a.idempotency_key, a.ok, a.error)) ++
        [(c.name, c.args, c.idempotency_key,
          some (DefaultToolExecutor.call now ex st c).1.ok,
          (DefaultToolExecutor.call now ex st c).1.error)] := by
  rw [act_step]
  split
  · simp [callState_actions]
  · simp [callState_actions]

/-- When the policy gate denies the main call, `act_step` leaves the
idempotency cache's slot for that call's key exactly as it was: the gate
returns before the lookup, so nothing is dispatched or cached under the
denied call's key (the optional post-action capture uses the distinct
`:postcap`-suffixed key). -/
theorem act_step_idem_gate (now : Int) (tooling : ToolingConfig) (pac : Bool)
    (c : ToolCall) (ex : DefaultToolExecutor) (st : AgentState)
    (hgate : policyDecision st.policy c.name = false) :
    alLookup ((act_step now tooling pac c ex st).2.1).idem c.idempotency_key =
      alLookup ex.idem c.idempotency_key := by
  have hmain : (DefaultToolExecutor.call now ex st c).2.1 = ex := by
    rw [call_denied now ex st c hgate]
  have hne : c.idempotency_key ++ ":postcap" ≠ c.idempotency_key := by
    intro h
    have hlen := congrArg String.length h
    have h8 : (":postcap" : String).length = 8 := rfl
    rw [String.length_append, h8] at hlen
    omega
  rw [act_step]
  split
  · show alLookup ((DefaultToolExecutor.call now
      (DefaultToolExecutor.call now ex st c).2.1
      (DefaultToolExecutor.call now ex st c).2.2
      { name := tooling.screen_capture, args := [("return_b64", Val.bool false)],
        idempotency_key := c.idempotency_key ++ ":postcap",
        timeout_ms := 20000 }).2.1).idem c.idempotency_key =
      alLookup ex.idem c.idempotency_key
    rw [call_idem_frame now
      (DefaultToolExecutor.call now ex st c).2.1
      (DefaultToolExecutor.call now ex st c).2.2
      { name := tooling.screen_capture, args := [("return_b64", Val.bool false)],
        idempotency_key := c.idempotency_key ++ ":postcap", timeout_ms := 20000 }
      c.idempotency_key hne]
    rw [hmain]
  · show alLookup ((DefaultToolExecutor.call now ex st c).2.1).idem c.idempotency_key =
      alLookup ex.idem c.idempotency_key
    rw [hmain]

/-- Counterexample for C7 as stated: in the allowlist-denial scenario
(`tool_allowlist=["screen_capture"]`, selector returns a click) the run
does end ESCALATED/POLICY_DENY, but an ActionRecord for the denied click
IS appended (with `ok=false`), so the scenario does not end "with no click
ActionRecord". -/
theorem act_policy_deny_counterexample :
    (node_act 0 denyClickState capNullExec {} clickSelector).1.status = .ESCALATED ∧
    (node_act 0 denyClickState capNullExec {} clickSelector).1.telemetry.error_code =
      some ErrorCode.POLICY_DENY ∧
    ((node_act 0 denyClickState capNullExec {} clickSelector).1.actions.map
      (fun a => (a.tool, a.ok))) = [("click", some false)] := by
  refine ⟨by decide, by decide, by decide⟩

/-- C7 (amended): when an executed ToolCall's result carries an error
beginning with POLICY_DENY, `node_act` terminates the run
ESCALATED/POLICY_DENY and executes no subsequent selector call (the result
equals the run with the selector truncated to the denied call), and an
ActionRecord for the call IS appended, recording `ok=false` and the
POLICY_DENY error; moreover, when the denial comes from the executor's own
policy gate (as in the allowlist scenario), the denied tool is never
dispatched: the idempotency cache gains no entry under the denied call's
key. -/
theorem act_policy_deny_escalates (now : Int) (st : AgentState) (ex : DefaultToolExecutor)
    (tooling : ToolingConfig) (selector : AgentState → ToolingConfig → List ToolCall)
    (pac : Bool) (c : ToolCall) (rest : List ToolCall) (p : Plan) (r : AgentState)
    (hp : st.plan = some p) (hv : p.is_valid = true)
    (hperc : st.perception.isSome = true)
    (ht : _step_timeout_exceeded now st = false)
    (hsel : selector (agSpan now st "node_act") tooling = c :: rest)
    (hko : (DefaultToolExecutor.call now ex (agSpan now st "node_act") c).1.ok = false)
    (hdeny : errStartsWith
      (DefaultToolExecutor.call now ex (agSpan now st "node_act") c).1.error
      "POLICY_DENY" = true)
    (hr : r = (node_act now st ex tooling selector pac).1) :
    r.status = .ESCALATED ∧
    r.telemetry.error_code = some ErrorCode.POLICY_DENY ∧
    r.done_reason = some ("Policy denied tool at runtime: " ++
      optStrRepr (DefaultToolExecutor.call now ex (agSpan now st "node_act") c).1.error) ∧
    r.actions.length = st.actions.length + 1 ∧
    r.actions.map (fun a => (a.tool, a.args, a.idempotency_key, a.ok, a.error)) =
      st.actions.map (fun a => (a.tool, a.args, a.idempotency_key, a.ok, a.error)) ++
        [(c.name, c.args, c.idempotency_key, some false,
          (DefaultToolExecutor.call now ex (agSpan now st "node_act") c).1.error)] ∧
    (policyDecision (agSpan now st "node_act").policy c.name = false →
      alLookup ((node_act now st ex tooling selector pac).2).idem c.idempotency_key =
        alLookup ex.idem c.idempotency_key) ∧
    node_act now st ex tooling selector pac = node_act now st ex tooling (fun _ _ => [c]) pac := by
  have hep : _ensure_plan st = true := by simp [_ensure_plan, hp, hv]
  have hpn : st.perception.isNone = false := by
    cases ho : st.perception
    · rw [ho] at hperc; exact Bool.noConfusion hperc
    · rfl
  have hres : (act_step now tooling pac c ex (agSpan now st "node_act")).2.2 =
      (DefaultToolExecutor.call now ex (agSpan now st "node_act") c).1 :=
    act_step_res now tooling pac c ex (agSpan now st "node_act")
  have hmap := act_step_actions_map now tooling pac c ex (agSpan now st "node_act")
  have hlen := (act_step_frame now tooling pac c ex (agSpan now st "node_act")).2.2.2
  subst hr
  rw [node_act]
  simp only [agSpan_plan_valid, hep, Bool.not_true, Bool.false_eq_true, if_false,
    agSpan_perception, hpn, Option.isNone_none, agSpan_timeout, ht, hsel,
    List.isEmpty_cons, if_true]
  rw [act_loop]
  simp only [hres, hko, Bool.false_eq_true, if_false, hdeny, if_true]
  refine ⟨rfl, rfl, rfl, ?_, ?_, ?_, ?_⟩
  · show (act_step now tooling pac c ex (agSpan now st "node_act")).1.actions.length =
      st.actions.length + 1
    rw [hlen, agSpan_actions]
  · show (act_step now tooling pac c ex (agSpan now st "node_act")).1.actions.map
        (fun a => (a.tool, a.args, a.idempotency_key, a.ok, a.error)) = _
    rw [hmap, agSpan_actions, hko]
  · intro hgate
    exact act_step_idem_gate now tooling pac c ex (agSpan now st "node_act") hgate
  · rw [node_act]
    simp only [agSpan_plan_valid, hep, Bool.not_true, Bool.false_eq_true, if_false,
      agSpan_perception, hpn, agSpan_timeout, ht, List.isEmpty_cons, if_true]
    rw [act_loop, act_loop]
    simp only [hres, hko, Bool.false_eq_true, if_false, hdeny, if_true]

/-- Witness for C7 (amended): the allowlist-denial scenario escalates with
error code POLICY_DENY, appending exactly the denied click's record. -/
theorem act_policy_deny_escalates_witness :
    (node_act 0 denyClickState capNullExec {} clickSelector).1.status = .ESCALATED ∧
    (node_act 0 denyClickState capNullExec {} clickSelector).1.telemetry.error_code =
      some ErrorCode.POLICY_DENY ∧
    (node_act 0 denyClickState capNullExec {} clickSelector).1.done_reason =
      some ("Policy denied tool at runtime: " ++
        optStrRepr (DefaultToolExecutor.call 0 capNullExec
          (agSpan 0 denyClickState "node_act")
          { name := "click", args := [("x", .int 10), ("y", .int 20)],
            idempotency_key := "kclick" }).1.error) ∧
    (node_act 0 denyClickState capNullExec {} clickSelector).1.actions.length =
      denyClickState.actions.length + 1 ∧
    (node_act 0 denyClickState capNullExec {} clickSelector).1.actions.map
        (fun a => (a.tool, a.args, a.idempotency_key, a.ok, a.error)) =
      denyClickState.actions.map
        (fun a => (a.tool, a.args, a.idempotency_key, a.ok, a.error)) ++
        [("click", [("x", .int 10), ("y", .int 20)], "kclick", some false,
          (DefaultToolExecutor.call 0 capNullExec
            (agSpan 0 denyClickState "node_act")
            { name := "click", args := [("x", .int 10), ("y", .int 20)],
              idempotency_key := "kclick" }).1.error)] ∧
    (policyDecision (agSpan 0 denyClickState "node_act").policy "click" = false →
      alLookup ((node_act 0 denyClickState capNullExec {} clickSelector).2).idem "kclick" =
        alLookup capNullExec.idem "kclick") ∧
    node_act 0 denyClickState capNullExec {} clickSelector =
      node_act 0 denyClickState capNullExec {}
        (fun _ _ => [{ name := "click", args := [("x", .int 10), ("y", .int 20)],
                       idempotency_key := "kclick" }]) := by
  have h := act_policy_deny_escalates 0 denyClickState capNullExec {} clickSelector true
    { name := "click", args := [("x", .int 10), ("y", .int 20)], idempotency_key := "kclick" }
    [] samplePlan (node_act 0 denyClickState capNullExec {} clickSelector).1
    rfl (by decide) (by decide) (by decide) rfl (by decide) (by decide) rfl
  exact h

/-- Counterexample for C8 as stated: with `store_screenshot_b64=false` and
`screen_capture` returning `{hash:null, b64:null}`, `node_perceive` does
NOT recover — it proceeds to POLICY_CHECK with a perception snapshot whose
`screenshot_hash` and `screenshot_b64` are both unset, violating the
claimed invariant. -/
theorem perceive_null_capture_counterexample :
    (node_perceive 0 baseState capNullExec {} false).1.status = .POLICY_CHECK ∧
    (node_perceive 0 baseState capNullExec {} false).1.status ≠ .RECOVERING ∧
    ((node_perceive 0 baseState capNullExec {} false).1.perception.map
      (fun s => (s.screenshot_hash.isNone, s.screenshot_b64.isNone))) = some (true, true) := by
  refine ⟨by decide, by decide, by decide⟩

/-- C8 (amended): `node_perceive` recovers exactly when the capture result
is not ok or its payload is not a dict; when the capture returns ok with a
dict payload — including one with `hash` and `b64` both null — perceive
proceeds to POLICY_CHECK and publishes a snapshot whose `screenshot_hash`
is the payload's `hash` (null becomes unset) and whose `screenshot_b64` is
the payload's `b64` when `store_screenshot_b64` is set and unset otherwise,
so a null-identity capture yields a snapshot with neither field populated. -/
theorem perceive_capture_gate (now : Int) (st : AgentState) (ex : DefaultToolExecutor)
    (tooling : ToolingConfig) (store_b64 prefer_uia omni_enabled : Bool)
    (stF : AgentState) (exF : DefaultToolExecutor)
    (cap : ToolResult) (exC : DefaultToolExecutor) (stC : AgentState)
    (p : Plan) (r : AgentState)
    (hp : st.plan = some p) (hv : p.is_valid = true)
    (ht : _step_timeout_exceeded now st = false)
    (hF : perceive_focus now (agSpan now st "node_perceive") ex tooling
      ((agSpan now st "node_perceive").currentStep) = (stF, exF))
    (hhas : exF.has tooling.screen_capture = true)
    (hC : DefaultToolExecutor.call now exF stF
      { name := tooling.screen_capture,
        args := [("return_b64", Val.bool store_b64)],
        idempotency_key := _toolcall_key stF ((agSpan now st "node_perceive").currentStep)
          tooling.screen_capture [("return_b64", Val.bool store_b64)],
        timeout_ms := 30000 } = (cap, exC, stC))
    (hr : r = (node_perceive now st ex tooling store_b64 prefer_uia omni_enabled).1) :
    ((cap.ok = false ∨ cap.data.isDict = false) → r.status = .RECOVERING) ∧
    (cap.ok = true → cap.data.isDict = true →
      r.status = .POLICY_CHECK ∧
      ∃ snap, r.perception = some snap ∧
        snap.screenshot_hash = pyGet cap.data "hash" ∧
        snap.screenshot_b64 = (if store_b64 = true then pyGet cap.data "b64" else none)) := by
  have hep : _ensure_plan st = true := by simp [_ensure_plan, hp, hv]
  subst hr
  rw [node_perceive]
  simp only [agSpan_plan_valid, hep, Bool.not_true, Bool.false_eq_true, if_false,
    agSpan_timeout, ht, hF, hhas, if_true, hC]
  constructor
  · intro h
    have hcond : (!cap.ok || !cap.data.isDict) = true := by
      cases h with
      | inl h1 => rw [h1]; rfl
      | inr h2 => rw [h2]; simp
    simp only [hcond, if_true]
  · intro hok hdict
    have hcond : (!cap.ok || !cap.data.isDict) = false := by
      rw [hok, hdict]; rfl
    simp only [hcond, Bool.false_eq_true, if_false]
    refine ⟨rfl, ?_⟩
    refine ⟨_, rfl, ?_, ?_⟩
    · repeat' split
      all_goals rfl
    · repeat' split
      all_goals rfl

/-- Witness for C8 (amended): the concrete null-identity capture proceeds
to POLICY_CHECK with both snapshot identity fields unset. -/
theorem perceive_capture_gate_witness :
    (node_perceive 0 baseState capNullExec {} false).1.status = .POLICY_CHECK ∧
    (∃ snap, (node_perceive 0 baseState capNullExec {} false).1.perception = some snap ∧
      snap.screenshot_hash = pyGet (.dict [("hash", .null), ("b64", .null)]) "hash" ∧
      snap.screenshot_b64 = (if false = true then
        pyGet (.dict [("hash", .null), ("b64", .null)]) "b64" else none)) := by
  have h := (perceive_capture_gate 0 baseState capNullExec {} false true true
    (perceive_focus 0 (agSpan 0 baseState "node_perceive") capNullExec {}
      ((agSpan 0 baseState "node_perceive").currentStep)).1
    (perceive_focus 0 (agSpan 0 baseState "node_perceive") capNullExec {}
      ((agSpan 0 baseState "node_perceive").currentStep)).2
    { ok := true, data := .dict [("hash", .null), ("b64", .null)] } _ _
    samplePlan (node_perceive 0 baseState capNullExec {} false).1
    rfl (by decide) (by decide) rfl (by decide) rfl rfl).2 rfl rfl
  exact h

/-- Behavior of `node_act`'s loop: on completion all recorded results are
ok and the status is untouched; on an abort the result trace is a run of
successes closed by the failing result, the status is ESCALATED for a
POLICY_DENY error and RECOVERING otherwise; one ActionRecord is appended
per executed call. -/
theorem act_loop_spec (now : Int) (tooling : ToolingConfig) (pac : Bool) (step : Step) :
    ∀ (calls : List ToolCall) (ex : DefaultToolExecutor) (st : AgentState),
      ((act_loop now tooling pac step calls ex st).2.2.2 = true →
        (act_loop now tooling pac step calls ex st).2.2.1.length = calls.length ∧
        (∀ x ∈ (act_loop now tooling pac step calls ex st).2.2.1, x.ok = true) ∧
        (act_loop now tooling pac step calls ex st).1.status = st.status) ∧
      ((act_loop now tooling pac step calls ex st).2.2.2 = false →
        ∃ pre lastr,
          (act_loop now tooling pac step calls ex st).2.2.1 = pre ++ [lastr] ∧
          (∀ x ∈ pre, x.ok = true) ∧ lastr.ok = false ∧
          (act_loop now tooling pac step calls ex st).2.2.1.length ≤ calls.length ∧
          (errStartsWith lastr.error "POLICY_DENY" = true →
            (act_loop now tooling pac step calls ex st).1.status = .ESCALATED ∧
            (act_loop now tooling pac step calls ex st).1.telemetry.error_code =
              some ErrorCode.POLICY_DENY) ∧
          (errStartsWith lastr.error "POLICY_DENY" = false →
            (act_loop now tooling pac step calls ex st).1.status = .RECOVERING)) ∧
      (act_loop now tooling pac step calls ex st).1.actions.length =
        st.actions.length + (act_loop now tooling pac step calls ex st).2.2.1.length := by
  intro calls
  induction calls with
  | nil =>
    intro ex st
    refine ⟨fun _ => ⟨rfl, ?_, rfl⟩, fun h => absurd h (by simp [act_loop]), rfl⟩
    intro x hx
    exact absurd hx (List.not_mem_nil x)
  | cons c cs ih =>
    intro ex st
    have hstat := (act_step_frame now tooling pac c ex st).1
    have hlen := (act_step_frame now tooling pac c ex st).2.2.2
    by_cases hok : (act_step now tooling pac c ex st).2.2.ok
    · have hunfold : act_loop now tooling pac step (c :: cs) ex st =
          ((act_loop now tooling pac step cs (act_step now tooling pac c ex st).2.1
              (act_step now tooling pac c ex st).1).1,
           (act_loop now tooling pac step cs (act_step now tooling pac c ex st).2.1
              (act_step now tooling pac c ex st).1).2.1,
           (act_step now tooling pac c ex st).2.2 ::
             (act_loop now tooling pac step cs (act_step now tooling pac c ex st).2.1
               (act_step now tooling pac c ex st).1).2.2.1,
           (act_loop now tooling pac step cs (act_step now tooling pac c ex st).2.1
              (act_step now tooling pac c ex st).1).2.2.2) := by
        rw [act_loop]
        simp only [hok, if_true]
      have IH := ih (act_step now tooling pac c ex st).2.1 (act_step now tooling pac c ex st).1
      rw [hunfold]
      refine ⟨?_, ?_, ?_⟩
      · intro hdone
        obtain ⟨hl, hall, hs⟩ := IH.1 hdone
        refine ⟨by simp [hl], ?_, by rw [hs, hstat]⟩
        intro x hx
        rcases List.mem_cons.mp hx with hx1 | hx2
        · rw [hx1]; exact hok
        · exact hall x hx2
      · intro hdone
        obtain ⟨pre, lastr, hdec, hpre, hlast, hle, hpd, hnpd⟩ := IH.2.1 hdone
        refine ⟨(act_step now tooling pac c ex st).2.2 :: pre, lastr, by simp [hdec], ?_,
          hlast, ?_, hpd, hnpd⟩
        · intro x hx
          rcases List.mem_cons.mp hx with hx1 | hx2
          · rw [hx1]; exact hok
          · exact hpre x hx2
        · simp only [List.length_cons]
          omega
      · rw [IH.2.2, hlen]
        simp only [List.length_cons]
        omega
    · have hokf : (act_step now tooling pac c ex st).2.2.ok = false :=
        Bool.not_eq_true _ ▸ (by simpa using hok)
      by_cases hpd : errStartsWith (act_step now tooling pac c ex st).2.2.error "POLICY_DENY"
      · have hunfold : act_loop now tooling pac step (c :: cs) ex st =
            (_terminal_escalate now
              (agEvent now (act_step now tooling pac c ex st).1 "policy_denied_runtime"
                [("step_id", .str step.id), ("tool", .str c.name),
                 ("error", optStrVal (act_step now tooling pac c ex st).2.2.error)])
              ("Policy denied tool at runtime: " ++
                optStrRepr (act_step now tooling pac c ex st).2.2.error)
              ErrorCode.POLICY_DENY,
             (act_step now tooling pac c ex st).2.1,
             [(act_step now tooling pac c ex st).2.2], false) := by
          rw [act_loop]
          simp only [hokf, Bool.false_eq_true, if_false, hpd, if_true]
        rw [hunfold]
        refine ⟨fun h => absurd h (by simp), ?_, by simp [hlen]⟩
        intro _
        refine ⟨[], (act_step now tooling pac c ex st).2.2, by simp, ?_, hokf, ?_, ?_, ?_⟩
        · intro x hx
          exact absurd hx (List.not_mem_nil x)
        · simp
        · intro _
          exact ⟨by simp, by simp⟩
        · intro hcontra
          rw [hpd] at hcontra
          exact Bool.noConfusion hcontra
      · have hpdf : errStartsWith (act_step now tooling pac c ex st).2.2.error
            "POLICY_DENY" = false := by simpa using hpd
        have hunfold : act_loop now tooling pac step (c :: cs) ex st =
            ({ agEvent now (act_step now tooling pac c ex st).1 "action_failed"
                [("step_id", .str step.id), ("tool", .str c.name),
                 ("error", optStrVal (act_step now tooling pac c ex st).2.2.error)] with
               status := .RECOVERING },
             (act_step now tooling pac c ex st).2.1,
             [(act_step now tooling pac c ex st).2.2], false) := by
          rw [act_loop]
          simp only [hokf, Bool.false_eq_true, if_false, hpdf, if_true]
        rw [hunfold]
        refine ⟨fun h => absurd h (by simp), ?_, by simp [hlen]⟩
        intro _
        refine ⟨[], (act_step now tooling pac c ex st).2.2, by simp, ?_, hokf, ?_, ?_, ?_⟩
        · intro x hx
          exact absurd hx (List.not_mem_nil x)
        · simp
        · intro hcontra
          rw [hpdf] at hcontra
          exact Bool.noConfusion hcontra
        · intro _
          rfl

/-- C9: under `node_act` with a valid plan, perception present and no step
timeout: an empty selector result sets RECOVERING with the audit log
unchanged; if every executed call succeeds the status becomes VERIFYING
with one record per call; if some executed call fails with an error not
beginning with POLICY_DENY, the status becomes RECOVERING, the result
trace is a run of successes closed by that failing call (the remaining
calls are not executed), and exactly one record per executed call was
appended. -/
theorem act_selector_outcomes (now : Int) (st : AgentState) (ex : DefaultToolExecutor)
    (tooling : ToolingConfig) (selector : AgentState → ToolingConfig → List ToolCall)
    (pac : Bool) (p : Plan) (r : AgentState) (calls : List ToolCall) (x : ToolResult)
    (hp : st.plan = some p) (hv : p.is_valid = true)
    (hperc : st.perception.isSome = true)
    (ht : _step_timeout_exceeded now st = false)
    (hcalls : selector (agSpan now st "node_act") tooling = calls)
    (hr : r = (node_act now st ex tooling selector pac).1) :
    (calls = [] → r.status = .RECOVERING ∧ r.actions = st.actions) ∧
    (calls ≠ [] →
      ((∀ y ∈ (act_loop now tooling pac st.currentStep calls ex
          (agSpan now st "node_act")).2.2.1, y.ok = true) →
        r.status = .VERIFYING ∧
        (act_loop now tooling pac st.currentStep calls ex
          (agSpan now st "node_act")).2.2.1.length = calls.length ∧
        r.actions.length = st.actions.length + calls.length) ∧
      (x ∈ (act_loop now tooling pac st.currentStep calls ex
          (agSpan now st "node_act")).2.2.1 →
        x.ok = false → errStartsWith x.error "POLICY_DENY" = false →
        r.status = .RECOVERING ∧
        (∃ pre, (act_loop now tooling pac st.currentStep calls ex
            (agSpan now st "node_act")).2.2.1 = pre ++ [x] ∧ ∀ y ∈ pre, y.ok = true) ∧
        (act_loop now tooling pac st.currentStep calls ex
          (agSpan now st "node_act")).2.2.1.length ≤ calls.length ∧
        r.actions.length = st.actions.length +
          (act_loop now tooling pac st.currentStep calls ex
            (agSpan now st "node_act")).2.2.1.length)) := by
  have hep : _ensure_plan st = true := by simp [_ensure_plan, hp, hv]
  have hpn : st.perception.isNone = false := by
    cases ho : st.perception
    · rw [ho] at hperc; exact Bool.noConfusion hperc
    · rfl
  have SPEC := act_loop_spec now tooling pac st.currentStep calls ex
    (agSpan now st "node_act")
  subst hr
  rw [node_act]
  simp only [agSpan_plan_valid, hep, Bool.not_true, Bool.false_eq_true, if_false,
    agSpan_perception, hpn, agSpan_timeout, ht, hcalls, agSpan_currentStep, if_true]
  constructor
  · intro hnil
    subst hnil
    refine ⟨rfl, rfl⟩
  · intro hne
    have hie : calls.isEmpty = false := isEmpty_false_of_ne_nil calls hne
    simp only [hie, Bool.false_eq_true, if_false]
    constructor
    · intro hall
      cases hdone : (act_loop now tooling pac st.currentStep calls ex
          (agSpan now st "node_act")).2.2.2
      · exfalso
        obtain ⟨pre, lastr, hdec, _, hlast, _, _, _⟩ := SPEC.2.1 hdone
        have hmem : lastr ∈ (act_loop now tooling pac st.currentStep calls ex
            (agSpan now st "node_act")).2.2.1 := by
          rw [hdec]
          exact List.mem_append_right pre (List.mem_singleton.mpr rfl)
        rw [hall lastr hmem] at hlast
        exact Bool.noConfusion hlast
      · obtain ⟨hl, _, _⟩ := SPEC.1 hdone
        simp only [hdone, if_true]
        refine ⟨rfl, hl, ?_⟩
        simp only [agEvent_actions]
        rw [show ({ (act_loop now tooling pac st.currentStep calls ex
            (agSpan now st "node_act")).1 with status := Status.VERIFYING } :
            AgentState).actions =
          (act_loop now tooling pac st.currentStep calls ex
            (agSpan now st "node_act")).1.actions from rfl]
        rw [SPEC.2.2, hl, agSpan_actions]
    · intro hx hxok hxpd
      cases hdone : (act_loop now tooling pac st.currentStep calls ex
          (agSpan now st "node_act")).2.2.2
      · obtain ⟨pre, lastr, hdec, hpre, hlast, hle, hpd, hnpd⟩ := SPEC.2.1 hdone
        have hxl : x = lastr := by
          rw [hdec] at hx
          rcases List.mem_append.mp hx with hx1 | hx2
          · exfalso
            rw [hpre x hx1] at hxok
            exact Bool.noConfusion hxok
          · exact List.mem_singleton.mp hx2
        subst hxl
        simp only [hdone, Bool.false_eq_true, if_false]
        exact ⟨hnpd hxpd, ⟨pre, hdec, hpre⟩, hle, SPEC.2.2⟩
      · exfalso
        obtain ⟨_, hall, _⟩ := SPEC.1 hdone
        rw [hall x hx] at hxok
        exact Bool.noConfusion hxok

/-- Witness for C9: the singleton `ping` selector succeeds, and `node_act`
moves to VERIFYING appending exactly one record. -/
theorem act_selector_outcomes_witness :
    (node_act 0 actState idemExec {} pingSelector).1.status = .VERIFYING ∧
    (act_loop 0 {} true actState.currentStep [pingCall] idemExec
      (agSpan 0 actState "node_act")).2.2.1.length = [pingCall].length ∧
    (node_act 0 actState idemExec {} pingSelector).1.actions.length =
      actState.actions.length + [pingCall].length :=
  ((act_selector_outcomes 0 actState idemExec {} pingSelector true samplePlan
      (node_act 0 actState idemExec {} pingSelector).1 [pingCall] default
      rfl (by decide) (by decide) (by decide) rfl rfl).2
    (List.cons_ne_nil pingCall [])).1 (by decide)

/-- Witness for C1: a concrete replay of `ping` under the key `"k1"`. -/
theorem executor_idempotent_replay_witness :
    c1call2.1 = c1call1.1 ∧ c1call2.2.1.idem = c1mid.2.1.idem ∧
      c1call2.2.2.telemetry.events = c1mid.2.2.telemetry.events ++
        [{ ts_ms := 0, type_ := "tool_idempotent_hit",
           attrs := [("tool", .str "ping")] }] :=
  executor_idempotent_replay 0 idemExec baseState pingCall [] pingCall
    c1call1.1 c1call1.2.1 c1call1.2.2 c1mid.2.1 c1mid.2.2
    c1call2.1 c1call2.2.1 c1call2.2.2
    rfl (by decide) (by decide) rfl rfl rfl rfl

end VILAGENT
